import Mathlib

/-
Verification development for the subscription business-intelligence
calculators (MRR, ARPU, churn rate, LTV, MRR expansion).

Modelling conventions:
* JavaScript numbers are modelled as exact rationals.  All amounts that the
  calculators handle are decimal currency values and small integers, for
  which rational arithmetic agrees with the sources double arithmetic on
  every example treated here.
* Math.round is modelled as jsRound, the mathematical function underlying
  the ECMAScript definition on exact values: the integer nearest to x with
  ties rounded toward positive infinity, i.e. the floor of x + 1/2.
* The clock sample Math.floor(Date.now() / 1000) taken by the churn, LTV
  and expansion calculators is passed in explicitly as the nowSec argument,
  so that every calculator becomes a function of its inputs and the sampled
  clock value.
* JavaScript truthiness tests on optional fields (unit_amount, customer,
  canceled_at) are modelled by explicit helper functions: null/undefined,
  the number 0 and the empty string are falsy.
* Errors thrown by the calculators are modelled by the Except monad with
  the error taxonomy of the specification (NoDataProvided and
  UnsupportedInterval).
* Presentation-only output fields (ISO date strings, calculatedAt
  timestamps, explanation prose, the plan breakdown tables) are outside the
  model; all machine-usable numeric and breakdown fields are kept.
-/

/-- Model of Math.round on exact values: nearest integer, ties toward
positive infinity. -/
def jsRound (q : ℚ) : ℤ := ⌊q + 1/2⌋

/-- Model of the rounding idiom Math.round(x * 100) / 100 used to round
every derived metric to two decimal places. -/
def round2 (q : ℚ) : ℚ := (jsRound (q * 100) : ℚ) / 100

/-- Model of String.prototype.toLowerCase restricted to ASCII data. -/
def jsToLowerCase (s : String) : String := ⟨s.data.map Char.toLower⟩

/-- Truthiness of an optional numeric field: null/undefined and 0 are
falsy. -/
def jsTruthyAmount : Option ℚ → Bool
  | none => false
  | some a => if a = 0 then false else true

/-- Truthiness of an optional string field: undefined and the empty string
are falsy. -/
def jsTruthyCustomer : Option String → Bool
  | none => false
  | some c => if c = "" then false else true

/-- Model of Set.prototype.add: append the element unless already
present.  The resulting list stays duplicate free, so its length is the
size of the set. -/
def insertUniq {α : Type} [DecidableEq α] (x : α) (l : List α) : List α :=
  if x ∈ l then l else l ++ [x]

/-- Model of the record-counting idiom counts[k] = (counts[k] || 0) + 1 on
an insertion-ordered association list. -/
def bumpCount (key : String) : List (String × Nat) → List (String × Nat)
  | [] => [(key, 1)]
  | (k, n) :: rest =>
    if k = key then (k, n + 1) :: rest else (k, n) :: bumpCount key rest

/-- Error taxonomy of the calculation layer. -/
inductive CalcError where
  | noDataProvided
  | unsupportedInterval (interval : String)

/-- Recurring billing descriptor of a price (types/subscription-types). -/
structure RecurringInfo where
  interval : String
  interval_count : ℚ

/-- Price of a line item (types/subscription-types).  unit_amount is in
minor currency units and may be null. -/
structure SubscriptionPrice where
  id : String
  nickname : Option String
  unit_amount : Option ℚ
  currency : String
  recurring : Option RecurringInfo

/-- Line item of a subscription (types/subscription-types). -/
structure SubscriptionItem where
  id : String
  price : SubscriptionPrice
  quantity : ℚ

/-- Subscription record (types/subscription-types).  customer and
canceled_at are optional because the runtime data is unvalidated and the
specification allows them to be absent. -/
structure StripeSubscription where
  id : String
  status : String
  customer : Option String
  created : ℚ
  canceled_at : Option ℚ
  cancel_at_period_end : Bool
  items : List SubscriptionItem

/-- Result record of billing normalization (utils/subscription-calculations,
normalizeBillingPeriodToMonthly). -/
structure BillingPeriodNormalization where
  originalAmount : ℚ
  originalInterval : String
  originalIntervalCount : ℚ
  normalizedMonthlyAmount : ℚ

/-- Switch of normalizeBillingPeriodToMonthly assigning the raw monthly
amount, with the default branch throwing the UnsupportedInterval error.
30.44 and 4.33 are the sources average days and weeks per month. -/
def normalizeRawMonthly (amount : ℚ) (interval : String)
    (intervalCount : ℚ) : Except CalcError ℚ :=
  match interval with
  | "day" => .ok (amount / intervalCount * (3044/100))
  | "week" => .ok (amount / intervalCount * (433/100))
  | "month" => .ok (amount / intervalCount)
  | "year" => .ok (amount / (intervalCount * 12))
  | _ => .error (.unsupportedInterval interval)

/-- Translation of normalizeBillingPeriodToMonthly: the switched raw value,
rounded to two decimals and packed into the result record. -/
def normalizeBillingPeriodToMonthly (amount : ℚ) (interval : String)
    (intervalCount : ℚ) : Except CalcError BillingPeriodNormalization :=
  (normalizeRawMonthly amount interval intervalCount).map fun x =>
    { originalAmount := amount
      originalInterval := interval
      originalIntervalCount := intervalCount
      normalizedMonthlyAmount := round2 x }

/-- Translation of isSubscriptionActiveForMRR: the active status list is
[active, past_due], extended with trialing when trials are included. -/
def isSubscriptionActiveForMRR (sub : StripeSubscription)
    (includeTrialSubscriptions : Bool) : Bool :=
  (["active", "past_due"] ++
    (if includeTrialSubscriptions then ["trialing"] else [])).contains sub.status

/-- Loop body of calculateSubscriptionMRR over the line items: items with
a falsy unit_amount or no recurring descriptor are skipped, the others are
converted from minor units (divide by 100) and normalized to monthly. -/
def mrrItemsTotal : List SubscriptionItem → Except CalcError ℚ
  | [] => .ok 0
  | item :: rest =>
    if jsTruthyAmount item.price.unit_amount then
      match item.price.recurring with
      | some r => do
        let amountInMajorUnits := (item.price.unit_amount.getD 0) * item.quantity / 100
        let n ← normalizeBillingPeriodToMonthly amountInMajorUnits r.interval r.interval_count
        let tl ← mrrItemsTotal rest
        return n.normalizedMonthlyAmount + tl
      | none => mrrItemsTotal rest
    else mrrItemsTotal rest

/-- Translation of calculateSubscriptionMRR: sum of the normalized monthly
item amounts, rounded to two decimals. -/
def calculateSubscriptionMRR (sub : StripeSubscription) : Except CalcError ℚ :=
  (mrrItemsTotal sub.items).map round2

/-- Translation of getBillingIntervalDescription. -/
def getBillingIntervalDescription (interval : String) (intervalCount : ℚ) : String :=
  if intervalCount = 1 then interval else toString intervalCount ++ "-" ++ interval

/-- Translation of calculateUniqueCustomerCount: insert each truthy
customer id into a set and return its size. -/
def calculateUniqueCustomerCount (subscriptions : List StripeSubscription) : Nat :=
  (subscriptions.foldl
    (fun acc sub =>
      match sub.customer with
      | some c => if c = "" then acc else insertUniq c acc
      | none => acc)
    []).length

/-- Translation of calculateARPU: zero customers give zero, otherwise MRR
over customers rounded to two decimals. -/
def calculateARPU (totalMRR : ℚ) (customerCount : Nat) : ℚ :=
  if customerCount = 0 then 0 else round2 (totalMRR / customerCount)

/-- Churn condition of identifyChurnedCustomers: status canceled with a
truthy canceled_at timestamp inside the analysis period. -/
def canceledInPeriod (periodStartTimestamp periodEndTimestamp : ℚ)
    (sub : StripeSubscription) : Bool :=
  sub.status = "canceled" &&
    (match sub.canceled_at with
     | some t =>
       if t = 0 then false
       else periodStartTimestamp ≤ t && t ≤ periodEndTimestamp
     | none => false)

/-- Translation of identifyChurnedCustomers: one pass collecting the set
of churned customers and the list of churned subscriptions. -/
def identifyChurnedCustomers (subscriptions : List StripeSubscription)
    (periodStartTimestamp periodEndTimestamp : ℚ) :
    List (Option String) × List StripeSubscription :=
  subscriptions.foldl
    (fun acc sub =>
      if canceledInPeriod periodStartTimestamp periodEndTimestamp sub then
        (insertUniq sub.customer acc.1, acc.2 ++ [sub])
      else acc)
    ([], [])

/-- Translation of calculateChurnRate. -/
def calculateChurnRate (totalCustomersAtStart churnedCustomersCount : Nat) : ℚ :=
  if totalCustomersAtStart = 0 then 0
  else round2 ((churnedCustomersCount : ℚ) / (totalCustomersAtStart : ℚ) * 100)

/-- Cancellation reason classification of groupChurnedByReason. -/
def churnReason (sub : StripeSubscription) : String :=
  if sub.cancel_at_period_end then ("scheduled_cancellation")
  else if sub.status = "canceled" then ("immediate_cancellation")
  else ("unknown")

/-- Translation of groupChurnedByReason. -/
def groupChurnedByReason (churnedSubscriptions : List StripeSubscription) :
    List (String × Nat) :=
  churnedSubscriptions.foldl (fun acc sub => bumpCount (churnReason sub) acc) []

/-- Currency filter test shared by all tools: keep a subscription when at
least one line item has exactly the lowercased requested currency. -/
def subMatchesCurrency (requested : String) (sub : StripeSubscription) : Bool :=
  sub.items.any fun item => item.price.currency = jsToLowerCase requested

/-- Currency filtering step of the tools: no filter keeps everything. -/
def filterByCurrency (currency : Option String)
    (subscriptions : List StripeSubscription) : List StripeSubscription :=
  match currency with
  | some c => subscriptions.filter (subMatchesCurrency c)
  | none => subscriptions

/-- Billing interval label of the first line item, or unknown, as shown in
the MRR and ARPU breakdowns. -/
def subscriptionBillingInterval (sub : StripeSubscription) : String :=
  match sub.items.head? with
  | some item =>
    match item.price.recurring with
    | some r => getBillingIntervalDescription r.interval r.interval_count
    | none => "unknown"
  | none => "unknown"

/-- Breakdown entry of the MRR tool output. -/
structure MRRBreakdownEntry where
  subscriptionId : String
  customerMRR : ℚ
  billingInterval : String

/-- Machine-usable output record of the MRR tool. -/
structure MRRResult where
  totalMRR : ℚ
  currency : String
  activeSubscriptions : Nat
  breakdown : List MRRBreakdownEntry

/-- Active and currency filtering pipeline of the MRR and ARPU tools:
first the status filter, then the currency filter. -/
def mrrActiveFiltered (includeTrialSubscriptions : Bool) (currency : Option String)
    (subscriptions : List StripeSubscription) : List StripeSubscription :=
  filterByCurrency currency
    (subscriptions.filter (isSubscriptionActiveForMRR · includeTrialSubscriptions))

/-- Accumulation loop of the MRR tool: per-subscription MRR plus the
breakdown entries, in input order. -/
def mrrLoop : List StripeSubscription → Except CalcError (ℚ × List MRRBreakdownEntry)
  | [] => .ok (0, [])
  | sub :: rest => do
    let subscriptionMRR ← calculateSubscriptionMRR sub
    let (tailTotal, tailBreakdown) ← mrrLoop rest
    return (subscriptionMRR + tailTotal,
      { subscriptionId := sub.id, customerMRR := subscriptionMRR,
        billingInterval := subscriptionBillingInterval sub } :: tailBreakdown)

/-- Translation of the stripe-mrr-tool execute body. -/
def stripeMRRTool (includeTrialSubscriptions : Bool) (currency : Option String)
    (subscriptions : List StripeSubscription) : Except CalcError MRRResult :=
  if subscriptions.isEmpty then .error .noDataProvided
  else do
    let filtered := mrrActiveFiltered includeTrialSubscriptions currency subscriptions
    let (total, breakdown) ← mrrLoop filtered
    return { totalMRR := round2 total
             currency := currency.getD ("usd")
             activeSubscriptions := filtered.length
             breakdown := breakdown }

/-- Breakdown entry of the ARPU tool output. -/
structure ARPUBreakdownEntry where
  customerId : Option String
  subscriptionId : String
  customerMRR : ℚ
  billingInterval : String

/-- Machine-usable output record of the ARPU tool. -/
structure ARPUResult where
  arpu : ℚ
  totalMRR : ℚ
  uniqueCustomers : Nat
  currency : String
  activeSubscriptions : Nat
  breakdown : List ARPUBreakdownEntry

/-- Accumulation loop of the ARPU tool. -/
def arpuLoop : List StripeSubscription → Except CalcError (ℚ × List ARPUBreakdownEntry)
  | [] => .ok (0, [])
  | sub :: rest => do
    let subscriptionMRR ← calculateSubscriptionMRR sub
    let (tailTotal, tailBreakdown) ← arpuLoop rest
    return (subscriptionMRR + tailTotal,
      { customerId := sub.customer, subscriptionId := sub.id,
        customerMRR := subscriptionMRR,
        billingInterval := subscriptionBillingInterval sub } :: tailBreakdown)

/-- Translation of the stripe-arpu-tool execute body: same filtering as the
MRR tool, unique customers counted on the same filtered list, ARPU from the
unrounded MRR total. -/
def stripeARPUTool (includeTrialSubscriptions : Bool) (currency : Option String)
    (subscriptions : List StripeSubscription) : Except CalcError ARPUResult :=
  if subscriptions.isEmpty then .error .noDataProvided
  else do
    let filtered := mrrActiveFiltered includeTrialSubscriptions currency subscriptions
    let (total, breakdown) ← arpuLoop filtered
    let uniqueCustomers := calculateUniqueCustomerCount filtered
    return { arpu := calculateARPU total uniqueCustomers
             totalMRR := round2 total
             uniqueCustomers := uniqueCustomers
             currency := currency.getD ("usd")
             activeSubscriptions := filtered.length
             breakdown := breakdown }

/-- Machine-usable output record of the churn-rate tool.  calculationMethod
records which of the three branches produced the churn rate; the source
surfaces it through the explanation text. -/
structure ChurnResult where
  churnRate : ℚ
  churnedCustomersCount : Nat
  totalCustomersAtStart : Nat
  newCustomersInPeriod : Nat
  churnedNewCustomers : Nat
  churnedSubscriptionsCount : Nat
  reasonBreakdown : List (String × Nat)
  periodStart : ℚ
  periodEnd : ℚ
  periodDays : ℚ
  retentionRate : ℚ
  calculationMethod : String

/-- Customer cohort loop of the churn tool: customers whose subscription
was created before the period go into the at-start set, those created
within the period into the acquired set.  The customer field is inserted
as is, without a truthiness guard. -/
def churnCohorts (periodStartTimestamp periodEndTimestamp : ℚ)
    (subscriptions : List StripeSubscription) :
    List (Option String) × List (Option String) :=
  subscriptions.foldl
    (fun acc sub =>
      if sub.created < periodStartTimestamp then
        (insertUniq sub.customer acc.1, acc.2)
      else if periodStartTimestamp ≤ sub.created ∧ sub.created ≤ periodEndTimestamp then
        (acc.1, insertUniq sub.customer acc.2)
      else acc)
    ([], [])

/-- Count of churned customers that also belong to the acquired-in-period
set. -/
def countChurnedNew (churnedCustomers acquired : List (Option String)) : Nat :=
  (churnedCustomers.filter (· ∈ acquired)).length

/-- Non-error path of the stripe-churn-rate-tool execute body. -/
def churnRateResult (periodDays : ℚ) (currency : Option String)
    (subscriptions : List StripeSubscription) (nowSec : ℚ) : ChurnResult :=
  let periodEndTimestamp := nowSec
  let periodStartTimestamp := periodEndTimestamp - periodDays * (24 * 60 * 60)
  let currencyFiltered := filterByCurrency currency subscriptions
  let cohorts := churnCohorts periodStartTimestamp periodEndTimestamp currencyFiltered
  let totalCustomersAtStart := cohorts.1.length
  let newCustomersInPeriod := cohorts.2.length
  let churned := identifyChurnedCustomers currencyFiltered periodStartTimestamp periodEndTimestamp
  let churnedCustomersCount := churned.1.length
  let churnedNewCustomers := countChurnedNew churned.1 cohorts.2
  let branch : ℚ × String :=
    if totalCustomersAtStart > 0 then
      (calculateChurnRate totalCustomersAtStart churnedCustomersCount, "traditional")
    else if newCustomersInPeriod > 0 then
      (round2 ((churnedNewCustomers : ℚ) / (newCustomersInPeriod : ℚ) * 100), "new_business")
    else (0, "no_customers")
  { churnRate := branch.1
    churnedCustomersCount := churnedCustomersCount
    totalCustomersAtStart := totalCustomersAtStart
    newCustomersInPeriod := newCustomersInPeriod
    churnedNewCustomers := churnedNewCustomers
    churnedSubscriptionsCount := churned.2.length
    reasonBreakdown := groupChurnedByReason churned.2
    periodStart := periodStartTimestamp
    periodEnd := periodEndTimestamp
    periodDays := periodDays
    retentionRate := round2 (100 - branch.1)
    calculationMethod := branch.2 }

/-- Translation of the stripe-churn-rate-tool execute body.  nowSec is the
clock sample taken at invocation. -/
def stripeChurnRateTool (periodDays : ℚ) (currency : Option String)
    (subscriptions : List StripeSubscription) (nowSec : ℚ) :
    Except CalcError ChurnResult :=
  if subscriptions.isEmpty then .error .noDataProvided
  else .ok (churnRateResult periodDays currency subscriptions nowSec)

/-- Sentinel Number.MAX_SAFE_INTEGER used by the LTV tool for zero churn. -/
def maxSafeInteger : ℚ := 9007199254740991

/-- Machine-usable output record of the LTV tool, including the nested
dependency results. -/
structure LTVResult where
  ltv : ℚ
  arpu : ℚ
  churnRate : ℚ
  retentionRate : ℚ
  monthsToChurn : ℚ
  currency : String
  totalCustomers : Nat
  activeSubscriptions : Nat
  churnedCustomers : Nat
  arpuDetails : ARPUResult
  churnDetails : ChurnResult

/-- Combination step of the stripe-ltv-tool execute body after the two
sub-tool calls: derive the monthly churn fraction from the churn rate (or
the MAX_SAFE_INTEGER sentinel at zero churn), divide, clamp to the display
ceilings 1000000 and 10000, and assemble the output record. -/
def ltvCombine (churnPeriodDays : ℚ) (arpuResult : ARPUResult)
    (churnResult : ChurnResult) : LTVResult :=
  let churnRateDecimal := churnResult.churnRate / 100
  let pre : ℚ × ℚ :=
    if churnRateDecimal = 0 then (maxSafeInteger, maxSafeInteger)
    else
      let monthlyChurnRate := churnRateDecimal * (30 / churnPeriodDays)
      (round2 (arpuResult.arpu / monthlyChurnRate), round2 (1 / monthlyChurnRate))
  let ltv := if pre.1 > 1000000 then 1000000 else pre.1
  let monthsToChurn := if pre.2 > 10000 then 10000 else pre.2
  { ltv := ltv
    arpu := arpuResult.arpu
    churnRate := churnResult.churnRate
    retentionRate := churnResult.retentionRate
    monthsToChurn := monthsToChurn
    currency := arpuResult.currency
    totalCustomers := arpuResult.uniqueCustomers + churnResult.newCustomersInPeriod
    activeSubscriptions := arpuResult.activeSubscriptions
    churnedCustomers := churnResult.churnedCustomersCount
    arpuDetails := arpuResult
    churnDetails := churnResult }

/-- Translation of the stripe-ltv-tool execute body: run the ARPU and churn
tools on the same snapshot, then combine their results. -/
def stripeLTVTool (includeTrialSubscriptions : Bool) (churnPeriodDays : ℚ)
    (currency : Option String) (subscriptions : List StripeSubscription)
    (nowSec : ℚ) : Except CalcError LTVResult :=
  if subscriptions.isEmpty then .error .noDataProvided
  else do
    let arpuResult ← stripeARPUTool includeTrialSubscriptions currency subscriptions
    let churnResult ← stripeChurnRateTool churnPeriodDays currency subscriptions nowSec
    return ltvCombine churnPeriodDays arpuResult churnResult

/-- Translation of the calculateItemMRR helper of the expansion tool. -/
def calculateItemMRR (item : SubscriptionItem) (quantity : ℚ) : Except CalcError ℚ :=
  if jsTruthyAmount item.price.unit_amount then
    match item.price.recurring with
    | some r =>
      (normalizeBillingPeriodToMonthly ((item.price.unit_amount.getD 0) * quantity / 100)
        r.interval r.interval_count).map (·.normalizedMonthlyAmount)
    | none => .ok 0
  else .ok 0

/-- Grouping step of the expansion tool: append the subscription to the
entry of its customer key, preserving first-seen key order as a JavaScript
Map does. -/
def addToGroup (groups : List (Option String × List StripeSubscription))
    (key : Option String) (sub : StripeSubscription) :
    List (Option String × List StripeSubscription) :=
  match groups with
  | [] => [(key, [sub])]
  | (k, subs) :: rest =>
    if k = key then (k, subs ++ [sub]) :: rest
    else (k, subs) :: addToGroup rest key sub

/-- Customer grouping of the expansion tool over the active subscriptions
(trials excluded, as the source calls the active test with its default). -/
def customerSubscriptionGroups (subscriptions : List StripeSubscription) :
    List (Option String × List StripeSubscription) :=
  subscriptions.foldl
    (fun acc sub =>
      if isSubscriptionActiveForMRR sub false then addToGroup acc sub.customer sub
      else acc)
    []

/-- Accumulator of the expansion analysis loops. -/
structure ExpansionAcc where
  startingMRR : ℚ
  expansionMRR : ℚ
  totalUpgrades : Nat

/-- Quantity-based expansion loop over the line items: items with quantity
above one are treated as quantity increases from a base quantity of one. -/
def quantityExpansionLoop (acc : ExpansionAcc) :
    List SubscriptionItem → Except CalcError ExpansionAcc
  | [] => .ok acc
  | item :: rest =>
    if item.quantity > 1 then do
      let baseItemMRR ← calculateItemMRR item 1
      let totalItemMRR ← calculateItemMRR item item.quantity
      let quantityExpansion := totalItemMRR - baseItemMRR
      let acc :=
        if quantityExpansion > 0 then
          { acc with expansionMRR := acc.expansionMRR + quantityExpansion,
                     totalUpgrades := acc.totalUpgrades + 1 }
        else acc
      quantityExpansionLoop acc rest
    else quantityExpansionLoop acc rest

/-- Per-subscription step of the expansion analysis: accumulate starting
MRR, flag recent subscriptions above the 50 currency unit threshold as
upgrades with an estimated previous MRR of max(0.6 times current, 20), then
run the quantity loop. -/
def expansionSubscriptionStep (periodStartTimestamp periodEndTimestamp : ℚ)
    (acc : ExpansionAcc) (sub : StripeSubscription) : Except CalcError ExpansionAcc := do
  let subscriptionMRR ← calculateSubscriptionMRR sub
  let acc := { acc with startingMRR := acc.startingMRR + subscriptionMRR }
  let acc :=
    if periodStartTimestamp ≤ sub.created ∧ sub.created ≤ periodEndTimestamp ∧
        subscriptionMRR > 50 then
      let estimatedOldMRR := max (subscriptionMRR * (6/10)) 20
      { acc with expansionMRR := acc.expansionMRR + (subscriptionMRR - estimatedOldMRR),
                 totalUpgrades := acc.totalUpgrades + 1 }
    else acc
  quantityExpansionLoop acc sub.items

/-- Outer loop of the expansion analysis over the customer groups. -/
def expansionGroupsLoop (periodStartTimestamp periodEndTimestamp : ℚ)
    (acc : ExpansionAcc) :
    List (Option String × List StripeSubscription) → Except CalcError ExpansionAcc
  | [] => .ok acc
  | (_, subs) :: rest => do
    let acc ← subs.foldlM (expansionSubscriptionStep periodStartTimestamp periodEndTimestamp) acc
    expansionGroupsLoop periodStartTimestamp periodEndTimestamp acc rest

/-- Machine-usable output record of the expansion tool. -/
structure ExpansionResult where
  expansionMRR : ℚ
  expansionRate : ℚ
  totalUpgrades : Nat
  totalDowngrades : Nat
  netExpansion : ℚ
  averageExpansionPerUpgrade : ℚ
  currency : String
  periodDays : ℚ

/-- Translation of the stripe-mrr-expansion-tool execute body. -/
def stripeMRRExpansionTool (periodDays : ℚ) (currency : Option String)
    (subscriptions : List StripeSubscription) (nowSec : ℚ) :
    Except CalcError ExpansionResult :=
  if subscriptions.isEmpty then .error .noDataProvided
  else do
    let periodEndTimestamp := nowSec
    let periodStartTimestamp := periodEndTimestamp - periodDays * (24 * 60 * 60)
    let currencyFiltered := filterByCurrency currency subscriptions
    let groups := customerSubscriptionGroups currencyFiltered
    let acc ← expansionGroupsLoop periodStartTimestamp periodEndTimestamp ⟨0, 0, 0⟩ groups
    let expansionRate :=
      if acc.startingMRR > 0 then round2 (acc.expansionMRR / acc.startingMRR * 100) else 0
    let averageExpansionPerUpgrade :=
      if acc.totalUpgrades > 0 then round2 (acc.expansionMRR / (acc.totalUpgrades : ℚ)) else 0
    let netExpansion := acc.expansionMRR
    return { expansionMRR := round2 acc.expansionMRR
             expansionRate := expansionRate
             totalUpgrades := acc.totalUpgrades
             totalDowngrades := 0
             netExpansion := netExpansion
             averageExpansionPerUpgrade := averageExpansionPerUpgrade
             currency := currency.getD ("usd")
             periodDays := periodDays }

/-- Interval strings supported by the normalization rules. -/
def supportedInterval (interval : String) : Bool :=
  ["day", "week", "month", "year"].contains interval

/-- Claim-level normalization formulas of section 4.1 of the specification,
stated independently of the source translation. -/
def specMonthlyRate (amount intervalCount : ℚ) : String → ℚ
  | "day" => amount / intervalCount * (3044/100)
  | "week" => amount / intervalCount * (433/100)
  | "month" => amount / intervalCount
  | "year" => amount / (intervalCount * 12)
  | _ => 0

/-- Claim-level rounding mode named by the specification: round half away
from zero. -/
def roundHalfAwayFromZero (q : ℚ) : ℤ :=
  if 0 ≤ q then ⌊q + 1/2⌋ else -⌊-q + 1/2⌋

/-- Claim-level monthly contribution of one line item: unit_amount times
quantity over 100, normalized per the rules of section 4.1 (including their
two-decimal rounding); items without a truthy unit_amount or without a
recurring descriptor contribute nothing. -/
def specItemMonthly (item : SubscriptionItem) : ℚ :=
  if jsTruthyAmount item.price.unit_amount then
    match item.price.recurring with
    | some r =>
      round2 (specMonthlyRate ((item.price.unit_amount.getD 0) * item.quantity / 100)
        r.interval_count r.interval)
    | none => 0
  else 0

/-- Claim-level MRR of one subscription: item contributions summed and
rounded to two decimals. -/
def specSubscriptionMRR (sub : StripeSubscription) : ℚ :=
  round2 ((sub.items.map specItemMonthly).sum)

/-- Guard that every line item that the MRR loop would process carries a
supported billing interval, so that the calculation cannot throw. -/
def itemOK (item : SubscriptionItem) : Bool :=
  !(jsTruthyAmount item.price.unit_amount) ||
    (match item.price.recurring with
     | some r => supportedInterval r.interval
     | none => true)

/-- All line items of the subscription pass the itemOK guard. -/
def subItemsOK (sub : StripeSubscription) : Bool :=
  sub.items.all itemOK

/-- Truthy customer id of a record, when present. -/
def truthyCustomerKey (sub : StripeSubscription) : Option String :=
  match sub.customer with
  | some c => if c = "" then none else some c
  | none => none

/-- Claim-level unique-customer count of a list of records: number of
distinct truthy customer ids. -/
def specUniqueCustomers (subscriptions : List StripeSubscription) : Nat :=
  (subscriptions.filterMap truthyCustomerKey).toFinset.card

/-- Claim-level MRR of a subscription when line items whose currency does
not match the requested one (case-insensitively) are excluded, as the
currency-filter sentence of the claim demands. -/
def specCurrencyRestrictedMRR (requested : String) (sub : StripeSubscription) : ℚ :=
  round2 (((sub.items.filter fun item =>
    jsToLowerCase item.price.currency = jsToLowerCase requested).map specItemMonthly).sum)

/-- Round-trip snapshot of the specification: active usd 2000/month, active
usd 24000/year, trialing usd 1000/month, canceled usd 1500/month. -/
def roundTripSnapshot : List StripeSubscription :=
  [ { id := "sub_1", status := "active", customer := some ("cus_1"), created := 0,
      canceled_at := none, cancel_at_period_end := false,
      items := [ { id := "si_1", quantity := 1,
                   price := { id := "price_1", nickname := none, unit_amount := some 2000,
                              currency := "usd",
                              recurring := some { interval := "month", interval_count := 1 } } } ] },
    { id := "sub_2", status := "active", customer := some ("cus_2"), created := 0,
      canceled_at := none, cancel_at_period_end := false,
      items := [ { id := "si_2", quantity := 1,
                   price := { id := "price_2", nickname := none, unit_amount := some 24000,
                              currency := "usd",
                              recurring := some { interval := "year", interval_count := 1 } } } ] },
    { id := "sub_3", status := "trialing", customer := some ("cus_3"), created := 0,
      canceled_at := none, cancel_at_period_end := false,
      items := [ { id := "si_3", quantity := 1,
                   price := { id := "price_3", nickname := none, unit_amount := some 1000,
                              currency := "usd",
                              recurring := some { interval := "month", interval_count := 1 } } } ] },
    { id := "sub_4", status := "canceled", customer := some ("cus_4"), created := 0,
      canceled_at := none, cancel_at_period_end := false,
      items := [ { id := "si_4", quantity := 1,
                   price := { id := "price_4", nickname := none, unit_amount := some 1500,
                              currency := "usd",
                              recurring := some { interval := "month", interval_count := 1 } } } ] } ]

/-- Claim-level count of distinct customer field values among the
subscriptions satisfying a predicate.  The customer field is counted as
stored, so an absent customer is one distinct value. -/
def specUniqueCustomersWhere (p : StripeSubscription → Prop) [DecidablePred p]
    (subscriptions : List StripeSubscription) : Nat :=
  (((subscriptions.filter fun s => decide (p s)).map fun s => s.customer)).toFinset.card

/-- Snapshot with five customers at period start of which two churn within
the period (relative to clock sample 1000000000 and a 30 day period). -/
def churnTraditionalSnapshot : List StripeSubscription :=
  [ { id := "t1", status := "active", customer := some ("c1"), created := 900000000,
      canceled_at := none, cancel_at_period_end := false, items := [] },
    { id := "t2", status := "active", customer := some ("c2"), created := 900000000,
      canceled_at := none, cancel_at_period_end := false, items := [] },
    { id := "t3", status := "active", customer := some ("c3"), created := 900000000,
      canceled_at := none, cancel_at_period_end := false, items := [] },
    { id := "t4", status := "canceled", customer := some ("c4"), created := 900000000,
      canceled_at := some 999500000, cancel_at_period_end := false, items := [] },
    { id := "t5", status := "canceled", customer := some ("c5"), created := 900000000,
      canceled_at := some 999600000, cancel_at_period_end := false, items := [] } ]

/-- Snapshot with no customers at period start, three customers acquired in
the period and one of them churned (clock sample 1000000000, 30 days). -/
def churnNewBusinessSnapshot : List StripeSubscription :=
  [ { id := "n1", status := "active", customer := some ("n1"), created := 999000000,
      canceled_at := none, cancel_at_period_end := false, items := [] },
    { id := "n2", status := "active", customer := some ("n2"), created := 999000000,
      canceled_at := none, cancel_at_period_end := false, items := [] },
    { id := "n3", status := "canceled", customer := some ("n3"), created := 999000000,
      canceled_at := some 999500000, cancel_at_period_end := false, items := [] } ]

/-- Snapshot with one customer at period start and two further customers
acquired and churned within the period, so that the churned count exceeds
the at-start count (clock sample 1000000000, 30 days). -/
def churnOverflowSnapshot : List StripeSubscription :=
  [ { id := "o0", status := "active", customer := some ("c0"), created := 900000000,
      canceled_at := none, cancel_at_period_end := false, items := [] },
    { id := "o1", status := "canceled", customer := some ("x1"), created := 999000000,
      canceled_at := some 999100000, cancel_at_period_end := false, items := [] },
    { id := "o2", status := "canceled", customer := some ("x2"), created := 999200000,
      canceled_at := some 999300000, cancel_at_period_end := false, items := [] } ]

/-- Snapshot whose churn result changes with the sampled clock value: the
cancellation at 1000 lies inside the 30 day window of clock sample 2000 and
outside the window of clock sample 1000000000. -/
def clockDependentSnapshot : List StripeSubscription :=
  [ { id := "cd1", status := "canceled", customer := some ("c"), created := 0,
      canceled_at := some 1000, cancel_at_period_end := false, items := [] } ]

/-- Snapshot whose single record lacks the customer field and was created
before the period start of clock sample 1000000000 with 30 day period. -/
def missingCustomerSnapshot : List StripeSubscription :=
  [ { id := "m1", status := "active", customer := none, created := 900000000,
      canceled_at := none, cancel_at_period_end := false, items := [] } ]

/-- Active subscription holding a eur line item of 1000 minor units per
month and a usd line item of 2000 minor units per month. -/
def mixedCurrencySub : StripeSubscription :=
  { id := "mix1", status := "active", customer := some ("cmix"), created := 0,
    canceled_at := none, cancel_at_period_end := false,
    items := [ { id := "mi_eur", quantity := 1,
                 price := { id := "p_eur", nickname := none, unit_amount := some 1000,
                            currency := "eur",
                            recurring := some { interval := "month", interval_count := 1 } } },
               { id := "mi_usd", quantity := 1,
                 price := { id := "p_usd", nickname := none, unit_amount := some 2000,
                            currency := "usd",
                            recurring := some { interval := "month", interval_count := 1 } } } ] }

/-- Snapshot holding only the mixed-currency subscription. -/
def mixedCurrencySnapshot : List StripeSubscription := [mixedCurrencySub]

/-- Snapshot for the LTV example: one active customer paying 3000 minor
units per month and one churned customer, giving ARPU 30 and churn rate 50
at clock sample 1000000000 with a 30 day churn period. -/
def ltvSnapshot : List StripeSubscription :=
  [ { id := "l1", status := "active", customer := some ("k1"), created := 900000000,
      canceled_at := none, cancel_at_period_end := false,
      items := [ { id := "li_1", quantity := 1,
                   price := { id := "lp_1", nickname := none, unit_amount := some 3000,
                              currency := "usd",
                              recurring := some { interval := "month", interval_count := 1 } } } ] },
    { id := "l2", status := "canceled", customer := some ("k2"), created := 900000000,
      canceled_at := some 999500000, cancel_at_period_end := false, items := [] } ]

/-- Snapshot for the ARPU example: three active monthly subscriptions of
2000 minor units each, held by three distinct customers. -/
def arpuSnapshot : List StripeSubscription :=
  [ { id := "a1", status := "active", customer := some ("u1"), created := 0,
      canceled_at := none, cancel_at_period_end := false,
      items := [ { id := "ai_1", quantity := 1,
                   price := { id := "ap_1", nickname := none, unit_amount := some 2000,
                              currency := "usd",
                              recurring := some { interval := "month", interval_count := 1 } } } ] },
    { id := "a2", status := "active", customer := some ("u2"), created := 0,
      canceled_at := none, cancel_at_period_end := false,
      items := [ { id := "ai_2", quantity := 1,
                   price := { id := "ap_2", nickname := none, unit_amount := some 2000,
                              currency := "usd",
                              recurring := some { interval := "month", interval_count := 1 } } } ] },
    { id := "a3", status := "active", customer := some ("u3"), created := 0,
      canceled_at := none, cancel_at_period_end := false,
      items := [ { id := "ai_3", quantity := 1,
                   price := { id := "ap_3", nickname := none, unit_amount := some 2000,
                              currency := "usd",
                              recurring := some { interval := "month", interval_count := 1 } } } ] } ]

/-- Non-empty snapshot holding only a canceled subscription, so that the
active filter leaves nothing. -/
def canceledOnlySnapshot : List StripeSubscription :=
  [ { id := "co1", status := "canceled", customer := some ("cc"), created := 0,
      canceled_at := some 10, cancel_at_period_end := false,
      items := [ { id := "ci_1", quantity := 1,
                   price := { id := "cp_1", nickname := none, unit_amount := some 1500,
                              currency := "usd",
                              recurring := some { interval := "month", interval_count := 1 } } } ] } ]

/-- Predicate for values that are integer multiples of one hundredth, the
shape every two-decimal rounded value has. -/
def isCentsMultiple (q : ℚ) : Prop := ∃ n : ℤ, q = (n : ℚ) / 100

theorem round2_isCents (q : ℚ) : isCentsMultiple (round2 q) :=
  ⟨jsRound (q * 100), rfl⟩

theorem isCents_zero : isCentsMultiple 0 := ⟨0, by norm_num⟩

theorem isCents_add {a b : ℚ} (ha : isCentsMultiple a) (hb : isCentsMultiple b) :
    isCentsMultiple (a + b) := by
  obtain ⟨n, hn⟩ := ha
  obtain ⟨m, hm⟩ := hb
  exact ⟨n + m, by rw [hn, hm]; push_cast; ring⟩

theorem round2_fix {q : ℚ} (h : isCentsMultiple q) : round2 q = q := by
  obtain ⟨n, hn⟩ := h
  subst hn
  have h100 : ((n : ℚ) / 100) * 100 = (n : ℚ) := by
    field_simp
  rw [round2, jsRound, h100]
  have : ⌊(n : ℚ) + 1/2⌋ = n := by
    rw [add_comm, Int.floor_add_int]
    norm_num
  rw [this]

theorem sum_isCents {l : List ℚ} (h : ∀ x ∈ l, isCentsMultiple x) :
    isCentsMultiple l.sum := by
  induction l with
  | nil => simpa using isCents_zero
  | cons x rest ih =>
    rw [List.sum_cons]
    exact isCents_add (h x (by simp)) (ih fun y hy => h y (by simp [hy]))

theorem specSubscriptionMRR_isCents (sub : StripeSubscription) :
    isCentsMultiple (specSubscriptionMRR sub) := round2_isCents _

theorem insertUniq_toFinset {α : Type} [DecidableEq α] (x : α) (l : List α) :
    (insertUniq x l).toFinset = insert x l.toFinset := by
  rw [insertUniq]
  split
  · rw [Finset.insert_eq_self.mpr (List.mem_toFinset.mpr (by assumption))]
  · simp [List.toFinset_append, Finset.union_comm, Finset.insert_eq]

theorem insertUniq_nodup {α : Type} [DecidableEq α] {x : α} {l : List α}
    (h : l.Nodup) : (insertUniq x l).Nodup := by
  rw [insertUniq]
  split
  · exact h
  · simp_all [List.nodup_append]

/-- Shape of the set-collecting loops: fold a conditional Set.add of the
customer field over the subscriptions. -/
def collectStep (p : StripeSubscription → Prop) [DecidablePred p]
    (acc : List (Option String)) (sub : StripeSubscription) : List (Option String) :=
  if p sub then insertUniq sub.customer acc else acc

theorem collect_toFinset (p : StripeSubscription → Prop) [DecidablePred p] :
    ∀ (subs : List StripeSubscription) (acc : List (Option String)),
    (subs.foldl (collectStep p) acc).toFinset =
      acc.toFinset ∪ ((subs.filter fun s => decide (p s)).map
        (fun s => s.customer)).toFinset := by
  intro subs
  induction subs with
  | nil => intro acc; simp
  | cons s rest ih =>
    intro acc
    by_cases hp : p s
    · have hf : List.filter (fun x => decide (p x)) (s :: rest) =
          s :: List.filter (fun x => decide (p x)) rest := by
        simp [List.filter_cons, hp]
      rw [List.foldl_cons, show collectStep p acc s = insertUniq s.customer acc from if_pos hp,
        ih, insertUniq_toFinset, hf, List.map_cons, List.toFinset_cons, Finset.union_insert,
        Finset.insert_union]
    · have hf : List.filter (fun x => decide (p x)) (s :: rest) =
          List.filter (fun x => decide (p x)) rest := by
        simp [List.filter_cons, hp]
      rw [List.foldl_cons, show collectStep p acc s = acc from if_neg hp, ih, hf]

theorem collect_nodup (p : StripeSubscription → Prop) [DecidablePred p] :
    ∀ (subs : List StripeSubscription) (acc : List (Option String)),
    acc.Nodup → (subs.foldl (collectStep p) acc).Nodup := by
  intro subs
  induction subs with
  | nil => intro acc h; simpa using h
  | cons s rest ih =>
    intro acc h
    by_cases hp : p s
    · simp only [List.foldl_cons, collectStep, if_pos hp]
      exact ih _ (insertUniq_nodup h)
    · simp only [List.foldl_cons, collectStep, if_neg hp]
      exact ih _ h

theorem collect_length (p : StripeSubscription → Prop) [DecidablePred p]
    (subs : List StripeSubscription) :
    (subs.foldl (collectStep p) []).length =
      ((subs.filter fun s => decide (p s)).map (fun s => s.customer)).toFinset.card := by
  rw [← List.toFinset_card_of_nodup (collect_nodup p subs [] (by simp)),
    collect_toFinset]
  simp

theorem supportedInterval_cases {interval : String}
    (h : supportedInterval interval = true) :
    interval = "day" ∨ interval = "week" ∨ interval = "month" ∨ interval = "year" := by
  simpa [supportedInterval] using h

theorem normalize_ok {interval : String} (h : supportedInterval interval = true)
    (amount intervalCount : ℚ) :
    normalizeBillingPeriodToMonthly amount interval intervalCount =
      .ok { originalAmount := amount, originalInterval := interval,
            originalIntervalCount := intervalCount,
            normalizedMonthlyAmount :=
              round2 (specMonthlyRate amount intervalCount interval) } := by
  rcases supportedInterval_cases h with h1 | h1 | h1 | h1 <;> subst h1 <;>
    simp [normalizeBillingPeriodToMonthly, normalizeRawMonthly, specMonthlyRate, Except.map]

theorem normalize_err {interval : String} (h : supportedInterval interval = false)
    (amount intervalCount : ℚ) :
    normalizeBillingPeriodToMonthly amount interval intervalCount =
      .error (.unsupportedInterval interval) := by
  have hmem : ¬(interval = "day" ∨ interval = "week" ∨ interval = "month" ∨ interval = "year") := by
    simpa [supportedInterval] using h
  have hraw : normalizeRawMonthly amount interval intervalCount =
      .error (.unsupportedInterval interval) := by
    rw [normalizeRawMonthly.eq_def]
    split <;> simp_all
  rw [normalizeBillingPeriodToMonthly, hraw]
  rfl

theorem mrrItemsTotal_ok : ∀ {items : List SubscriptionItem},
    (∀ item ∈ items, itemOK item = true) →
    mrrItemsTotal items = .ok ((items.map specItemMonthly).sum) := by
  intro items
  induction items with
  | nil => intro _; simp [mrrItemsTotal]
  | cons item rest ih =>
    intro h
    have hr := ih fun i hi => h i (List.mem_cons_of_mem _ hi)
    have hit := h item (List.mem_cons_self _ _)
    by_cases ht : jsTruthyAmount item.price.unit_amount = true
    · cases hrec : item.price.recurring with
      | none =>
        rw [mrrItemsTotal, if_pos ht, hrec, hr]
        simp [specItemMonthly, ht, hrec]
      | some r =>
        have hsupp : supportedInterval r.interval = true := by
          rw [itemOK, ht, hrec] at hit
          simpa using hit
        rw [mrrItemsTotal, if_pos ht, hrec]
        simp [normalize_ok hsupp, hr, specItemMonthly, ht, hrec, bind, Except.bind,
          pure, Except.pure]
    · have ht2 : jsTruthyAmount item.price.unit_amount = false := by
        simpa using ht
      rw [mrrItemsTotal, if_neg (by simp [ht2]), hr]
      simp [specItemMonthly, ht2]

theorem calculateSubscriptionMRR_ok {sub : StripeSubscription}
    (h : subItemsOK sub = true) :
    calculateSubscriptionMRR sub = .ok (specSubscriptionMRR sub) := by
  have hall : ∀ item ∈ sub.items, itemOK item = true := by
    simpa [subItemsOK, List.all_eq_true] using h
  rw [calculateSubscriptionMRR, mrrItemsTotal_ok hall]
  simp [Except.map, specSubscriptionMRR]

theorem mrrLoop_ok : ∀ {subs : List StripeSubscription},
    (∀ sub ∈ subs, subItemsOK sub = true) →
    mrrLoop subs = .ok ((subs.map specSubscriptionMRR).sum,
      subs.map fun sub =>
        { subscriptionId := sub.id, customerMRR := specSubscriptionMRR sub,
          billingInterval := subscriptionBillingInterval sub }) := by
  intro subs
  induction subs with
  | nil => intro _; simp [mrrLoop]
  | cons sub rest ih =>
    intro h
    rw [mrrLoop]
    simp [calculateSubscriptionMRR_ok (h sub (List.mem_cons_self _ _)),
      ih fun s hs => h s (List.mem_cons_of_mem _ hs),
      bind, Except.bind, pure, Except.pure]

theorem arpuLoop_ok : ∀ {subs : List StripeSubscription},
    (∀ sub ∈ subs, subItemsOK sub = true) →
    arpuLoop subs = .ok ((subs.map specSubscriptionMRR).sum,
      subs.map fun sub =>
        { customerId := sub.customer, subscriptionId := sub.id,
          customerMRR := specSubscriptionMRR sub,
          billingInterval := subscriptionBillingInterval sub }) := by
  intro subs
  induction subs with
  | nil => intro _; simp [arpuLoop]
  | cons sub rest ih =>
    intro h
    rw [arpuLoop]
    simp [calculateSubscriptionMRR_ok (h sub (List.mem_cons_self _ _)),
      ih fun s hs => h s (List.mem_cons_of_mem _ hs),
      bind, Except.bind, pure, Except.pure]

theorem mem_mrrActiveFiltered {b : Bool} {cur : Option String}
    {subs : List StripeSubscription} {sub : StripeSubscription}
    (h : sub ∈ mrrActiveFiltered b cur subs) :
    sub ∈ subs ∧ isSubscriptionActiveForMRR sub b = true := by
  cases cur with
  | none =>
    rw [mrrActiveFiltered, filterByCurrency] at h
    simpa [List.mem_filter] using h
  | some c =>
    rw [mrrActiveFiltered, filterByCurrency] at h
    have h2 := (List.mem_filter.mp h).1
    simpa [List.mem_filter] using h2

theorem isEmpty_false_of_ne_nil {l : List StripeSubscription} (h : l ≠ []) :
    l.isEmpty = false := by
  cases l with
  | nil => exact absurd rfl h
  | cons a t => rfl

theorem stripeMRRTool_ok {b : Bool} {cur : Option String} {subs : List StripeSubscription}
    (hne : subs ≠ [])
    (hwf : ∀ sub ∈ subs, isSubscriptionActiveForMRR sub b = true → subItemsOK sub = true) :
    stripeMRRTool b cur subs = .ok
      { totalMRR := round2 (((mrrActiveFiltered b cur subs).map specSubscriptionMRR).sum)
        currency := cur.getD ("usd")
        activeSubscriptions := (mrrActiveFiltered b cur subs).length
        breakdown := (mrrActiveFiltered b cur subs).map fun sub =>
          { subscriptionId := sub.id, customerMRR := specSubscriptionMRR sub,
            billingInterval := subscriptionBillingInterval sub } } := by
  have hwf2 : ∀ sub ∈ mrrActiveFiltered b cur subs, subItemsOK sub = true := fun sub hs =>
    hwf sub (mem_mrrActiveFiltered hs).1 (mem_mrrActiveFiltered hs).2
  rw [stripeMRRTool, if_neg (by simp [isEmpty_false_of_ne_nil hne])]
  simp [mrrLoop_ok hwf2, bind, Except.bind, pure, Except.pure]

theorem mappedMRR_sum_isCents (l : List StripeSubscription) :
    isCentsMultiple ((l.map specSubscriptionMRR).sum) := by
  refine sum_isCents ?_
  intro x hx
  obtain ⟨s, _, rfl⟩ := List.mem_map.mp hx
  exact specSubscriptionMRR_isCents s

theorem stripeARPUTool_ok {b : Bool} {cur : Option String} {subs : List StripeSubscription}
    (hne : subs ≠ [])
    (hwf : ∀ sub ∈ subs, isSubscriptionActiveForMRR sub b = true → subItemsOK sub = true) :
    stripeARPUTool b cur subs = .ok
      { arpu := calculateARPU (((mrrActiveFiltered b cur subs).map specSubscriptionMRR).sum)
          (calculateUniqueCustomerCount (mrrActiveFiltered b cur subs))
        totalMRR := ((mrrActiveFiltered b cur subs).map specSubscriptionMRR).sum
        uniqueCustomers := calculateUniqueCustomerCount (mrrActiveFiltered b cur subs)
        currency := cur.getD ("usd")
        activeSubscriptions := (mrrActiveFiltered b cur subs).length
        breakdown := (mrrActiveFiltered b cur subs).map fun sub =>
          { customerId := sub.customer, subscriptionId := sub.id,
            customerMRR := specSubscriptionMRR sub,
            billingInterval := subscriptionBillingInterval sub } } := by
  have hwf2 : ∀ sub ∈ mrrActiveFiltered b cur subs, subItemsOK sub = true := fun sub hs =>
    hwf sub (mem_mrrActiveFiltered hs).1 (mem_mrrActiveFiltered hs).2
  rw [stripeARPUTool, if_neg (by simp [isEmpty_false_of_ne_nil hne])]
  simp [arpuLoop_ok hwf2, bind, Except.bind, pure, Except.pure,
    round2_fix (mappedMRR_sum_isCents _)]

theorem stripeChurnRateTool_ok {pd : ℚ} {cur : Option String}
    {subs : List StripeSubscription} {now : ℚ} (hne : subs ≠ []) :
    stripeChurnRateTool pd cur subs now = .ok (churnRateResult pd cur subs now) := by
  rw [stripeChurnRateTool, if_neg (by simp [isEmpty_false_of_ne_nil hne])]

theorem churnCohorts_split (ps pe : ℚ) :
    ∀ (subs : List StripeSubscription) (a b : List (Option String)),
    subs.foldl
      (fun acc sub =>
        if sub.created < ps then (insertUniq sub.customer acc.1, acc.2)
        else if ps ≤ sub.created ∧ sub.created ≤ pe then
          (acc.1, insertUniq sub.customer acc.2)
        else acc)
      (a, b) =
      (subs.foldl (collectStep fun s => s.created < ps) a,
       subs.foldl (collectStep fun s => ¬(s.created < ps) ∧ (ps ≤ s.created ∧ s.created ≤ pe)) b) := by
  intro subs
  induction subs with
  | nil => intro a b; rfl
  | cons s rest ih =>
    intro a b
    by_cases h1 : s.created < ps
    · simp only [List.foldl_cons, collectStep, if_pos h1,
        if_neg (show ¬(¬(s.created < ps) ∧ (ps ≤ s.created ∧ s.created ≤ pe)) by tauto)]
      exact ih _ _
    · by_cases h2 : ps ≤ s.created ∧ s.created ≤ pe
      · simp only [List.foldl_cons, collectStep, if_neg h1, if_pos h2,
          if_pos (show ¬(s.created < ps) ∧ (ps ≤ s.created ∧ s.created ≤ pe) from ⟨h1, h2⟩)]
        exact ih _ _
      · simp only [List.foldl_cons, collectStep, if_neg h1, if_neg h2,
          if_neg (show ¬(¬(s.created < ps) ∧ (ps ≤ s.created ∧ s.created ≤ pe)) by tauto)]
        exact ih _ _

theorem churnCohorts_eq (ps pe : ℚ) (subs : List StripeSubscription) :
    churnCohorts ps pe subs =
      (subs.foldl (collectStep fun s => s.created < ps) [],
       subs.foldl (collectStep fun s => ¬(s.created < ps) ∧ (ps ≤ s.created ∧ s.created ≤ pe)) []) := by
  rw [churnCohorts, churnCohorts_split]

theorem identifyChurned_split (ps pe : ℚ) :
    ∀ (subs : List StripeSubscription) (a : List (Option String))
      (b : List StripeSubscription),
    subs.foldl
      (fun acc sub =>
        if canceledInPeriod ps pe sub then
          (insertUniq sub.customer acc.1, acc.2 ++ [sub])
        else acc)
      (a, b) =
      (subs.foldl (collectStep fun s => canceledInPeriod ps pe s = true) a,
       b ++ subs.filter (canceledInPeriod ps pe)) := by
  intro subs
  induction subs with
  | nil => intro a b; simp
  | cons s rest ih =>
    intro a b
    rw [List.foldl_cons, List.foldl_cons]
    by_cases h : canceledInPeriod ps pe s = true
    · have hf : List.filter (canceledInPeriod ps pe) (s :: rest) =
          s :: List.filter (canceledInPeriod ps pe) rest := by
        simp [List.filter_cons, h]
      rw [if_pos h, ih,
        show collectStep (fun s => canceledInPeriod ps pe s = true) a s =
          insertUniq s.customer a from if_pos h, hf]
      simp
    · have hf : List.filter (canceledInPeriod ps pe) (s :: rest) =
          List.filter (canceledInPeriod ps pe) rest := by
        simp [List.filter_cons, h]
      rw [if_neg h, ih,
        show collectStep (fun s => canceledInPeriod ps pe s = true) a s = a from if_neg h, hf]

theorem identifyChurned_eq (ps pe : ℚ) (subs : List StripeSubscription) :
    identifyChurnedCustomers subs ps pe =
      (subs.foldl (collectStep fun s => canceledInPeriod ps pe s = true) [],
       subs.filter (canceledInPeriod ps pe)) := by
  rw [identifyChurnedCustomers, identifyChurned_split]
  simp

theorem uniqueGo_toFinset :
    ∀ (subs : List StripeSubscription) (acc : List String),
    (subs.foldl
      (fun acc sub =>
        match sub.customer with
        | some c => if c = "" then acc else insertUniq c acc
        | none => acc)
      acc).toFinset
      = acc.toFinset ∪ (subs.filterMap truthyCustomerKey).toFinset := by
  intro subs
  induction subs with
  | nil => intro acc; simp
  | cons s rest ih =>
    intro acc
    cases hc : s.customer with
    | none =>
      simp [hc, truthyCustomerKey, List.filterMap_cons, ih]
    | some c =>
      by_cases he : c = ""
      · simp [hc, he, truthyCustomerKey, List.filterMap_cons, ih]
      · simp [hc, he, truthyCustomerKey, List.filterMap_cons, ih, insertUniq_toFinset,
          Finset.insert_union, Finset.union_insert]

theorem uniqueGo_nodup :
    ∀ (subs : List StripeSubscription) (acc : List String), acc.Nodup →
    (subs.foldl
      (fun acc sub =>
        match sub.customer with
        | some c => if c = "" then acc else insertUniq c acc
        | none => acc)
      acc).Nodup := by
  intro subs
  induction subs with
  | nil => intro acc h; simpa using h
  | cons s rest ih =>
    intro acc h
    cases hc : s.customer with
    | none => simp only [List.foldl_cons, hc]; exact ih _ h
    | some c =>
      by_cases he : c = ""
      · simp only [List.foldl_cons, hc, he, if_pos rfl]
        exact ih _ h
      · simp only [List.foldl_cons, hc, if_neg he]
        exact ih _ (insertUniq_nodup h)

theorem calculateUniqueCustomerCount_eq (subs : List StripeSubscription) :
    calculateUniqueCustomerCount subs = specUniqueCustomers subs := by
  rw [calculateUniqueCustomerCount, specUniqueCustomers,
    ← List.toFinset_card_of_nodup (uniqueGo_nodup subs [] (by simp)),
    uniqueGo_toFinset]
  simp

theorem churn_totalCustomersAtStart (pd : ℚ) (cur : Option String)
    (subs : List StripeSubscription) (now : ℚ) :
    (churnRateResult pd cur subs now).totalCustomersAtStart =
      specUniqueCustomersWhere (fun s => s.created < now - pd * (24 * 60 * 60))
        (filterByCurrency cur subs) := by
  simp only [churnRateResult, churnCohorts, churnCohorts_split]
  rw [collect_length]
  rfl

theorem churn_newCustomersInPeriod (pd : ℚ) (cur : Option String)
    (subs : List StripeSubscription) (now : ℚ) :
    (churnRateResult pd cur subs now).newCustomersInPeriod =
      specUniqueCustomersWhere
        (fun s => now - pd * (24 * 60 * 60) ≤ s.created ∧ s.created ≤ now)
        (filterByCurrency cur subs) := by
  simp only [churnRateResult, churnCohorts, churnCohorts_split]
  rw [collect_length]
  simp only [specUniqueCustomersWhere]
  refine congrArg Finset.card (congrArg List.toFinset
    (congrArg (List.map _) (List.filter_congr ?_)))
  intro s _
  rw [decide_eq_decide]
  constructor
  · rintro ⟨_, h2⟩; exact h2
  · intro h2; exact ⟨not_lt.mpr h2.1, h2⟩

theorem churn_churnedCustomersCount (pd : ℚ) (cur : Option String)
    (subs : List StripeSubscription) (now : ℚ) :
    (churnRateResult pd cur subs now).churnedCustomersCount =
      specUniqueCustomersWhere
        (fun s => canceledInPeriod (now - pd * (24 * 60 * 60)) now s = true)
        (filterByCurrency cur subs) := by
  simp only [churnRateResult, identifyChurnedCustomers, identifyChurned_split]
  rw [collect_length]
  rfl

theorem churn_rate_branches (pd : ℚ) (cur : Option String)
    (subs : List StripeSubscription) (now : ℚ) :
    (churnRateResult pd cur subs now).churnRate =
      (if (churnRateResult pd cur subs now).totalCustomersAtStart > 0 then
        calculateChurnRate (churnRateResult pd cur subs now).totalCustomersAtStart
          (churnRateResult pd cur subs now).churnedCustomersCount
       else if (churnRateResult pd cur subs now).newCustomersInPeriod > 0 then
        round2 (((churnRateResult pd cur subs now).churnedNewCustomers : ℚ) /
          ((churnRateResult pd cur subs now).newCustomersInPeriod : ℚ) * 100)
       else 0) := by
  simp only [churnRateResult]
  split <;> first | rfl | (split <;> rfl)

theorem churn_retention (pd : ℚ) (cur : Option String)
    (subs : List StripeSubscription) (now : ℚ) :
    (churnRateResult pd cur subs now).retentionRate =
      round2 (100 - (churnRateResult pd cur subs now).churnRate) := by
  simp only [churnRateResult]

theorem round2_zero : round2 0 = 0 := round2_fix isCents_zero

/-- Claim C2 counterexample: the source rounds the scaled value with
Math.round, whose ties go toward positive infinity, not away from zero.
At amount -1/200 (month, count 1) the scaled value is -1/2: the code
returns 0, while rounding half away from zero would give -1/100. -/
theorem normalize_rounding_not_half_away_from_zero :
    normalizeBillingPeriodToMonthly (-(1/200)) ("month") 1 =
      .ok { originalAmount := -(1/200), originalInterval := "month",
            originalIntervalCount := 1, normalizedMonthlyAmount := 0 } ∧
    ((roundHalfAwayFromZero ((-(1/200)) * 100) : ℚ) / 100 = -(1/100)) ∧
    (0 : ℚ) ≠ -(1/100) := by
  refine ⟨?_, ?_, by norm_num⟩
  · norm_num [normalizeBillingPeriodToMonthly, normalizeRawMonthly, round2, jsRound,
      Except.map]
  · norm_num [roundHalfAwayFromZero]

/-- Claim C2 (amended): for every amount, interval in day, week, month,
year and intervalCount at least 1, normalize returns amount/intervalCount
times 30.44 for day, times 4.33 for week, amount/intervalCount for month
and amount/(intervalCount times 12) for year, rounded to two decimals by
floor(x*100 + 1/2)/100 (round half up, toward positive infinity), which
coincides with round half away from zero on every nonnegative scaled
value; the four quoted examples hold, and every other interval string
fails with the UnsupportedInterval error. -/
theorem normalize_formulas_and_rounding :
    (∀ (amount intervalCount : ℚ), 1 ≤ intervalCount →
      (normalizeBillingPeriodToMonthly amount ("day") intervalCount =
        .ok { originalAmount := amount, originalInterval := "day",
              originalIntervalCount := intervalCount,
              normalizedMonthlyAmount := round2 (amount / intervalCount * (3044/100)) }) ∧
      (normalizeBillingPeriodToMonthly amount ("week") intervalCount =
        .ok { originalAmount := amount, originalInterval := "week",
              originalIntervalCount := intervalCount,
              normalizedMonthlyAmount := round2 (amount / intervalCount * (433/100)) }) ∧
      (normalizeBillingPeriodToMonthly amount ("month") intervalCount =
        .ok { originalAmount := amount, originalInterval := "month",
              originalIntervalCount := intervalCount,
              normalizedMonthlyAmount := round2 (amount / intervalCount) }) ∧
      (normalizeBillingPeriodToMonthly amount ("year") intervalCount =
        .ok { originalAmount := amount, originalInterval := "year",
              originalIntervalCount := intervalCount,
              normalizedMonthlyAmount := round2 (amount / (intervalCount * 12)) })) ∧
    (∀ q : ℚ, 0 ≤ q → jsRound q = roundHalfAwayFromZero q) ∧
    ((normalizeBillingPeriodToMonthly 100 ("day") 1).map
      (fun n => n.normalizedMonthlyAmount) = .ok 3044) ∧
    ((normalizeBillingPeriodToMonthly 100 ("week") 1).map
      (fun n => n.normalizedMonthlyAmount) = .ok 433) ∧
    ((normalizeBillingPeriodToMonthly 1200 ("year") 1).map
      (fun n => n.normalizedMonthlyAmount) = .ok 100) ∧
    ((normalizeBillingPeriodToMonthly 600 ("month") 3).map
      (fun n => n.normalizedMonthlyAmount) = .ok 200) ∧
    (∀ interval : String, supportedInterval interval = false →
      ∀ (amount intervalCount : ℚ),
        normalizeBillingPeriodToMonthly amount interval intervalCount =
          .error (.unsupportedInterval interval)) := by
  refine ⟨?_, ?_, ?_, ?_, ?_, ?_, ?_⟩
  · intro amount intervalCount _
    exact ⟨normalize_ok (by decide) amount intervalCount,
      normalize_ok (by decide) amount intervalCount,
      normalize_ok (by decide) amount intervalCount,
      normalize_ok (by decide) amount intervalCount⟩
  · intro q hq
    rw [roundHalfAwayFromZero, if_pos hq, jsRound]
  · norm_num [normalizeBillingPeriodToMonthly, normalizeRawMonthly, round2, jsRound,
      Except.map]
  · norm_num [normalizeBillingPeriodToMonthly, normalizeRawMonthly, round2, jsRound,
      Except.map]
  · norm_num [normalizeBillingPeriodToMonthly, normalizeRawMonthly, round2, jsRound,
      Except.map]
  · norm_num [normalizeBillingPeriodToMonthly, normalizeRawMonthly, round2, jsRound,
      Except.map]
  · intro interval h amount intervalCount
    exact normalize_err h amount intervalCount

/-- Witness for the amended claim C2, instantiated at the quoted month
example, a nonnegative scaled value and the unsupported hour interval. -/
theorem normalize_formulas_and_rounding_witness :
    (normalizeBillingPeriodToMonthly 600 ("month") 3 =
      .ok { originalAmount := 600, originalInterval := "month", originalIntervalCount := 3,
            normalizedMonthlyAmount := round2 (600 / 3) }) ∧
    jsRound 5 = roundHalfAwayFromZero 5 ∧
    normalizeBillingPeriodToMonthly 100 ("hour") 1 =
      .error (.unsupportedInterval ("hour")) := by
  refine ⟨(normalize_formulas_and_rounding.1 600 3 (by norm_num)).2.2.1,
    normalize_formulas_and_rounding.2.1 5 (by norm_num),
    normalize_formulas_and_rounding.2.2.2.2.2.2 ("hour") (by decide) 100 1⟩

/-- Claim C1: the MRR calculator includes exactly the subscriptions whose
status lies in the set containing active and past_due, extended with
trialing iff trials are included; each included subscription contributes
its per-item normalized monthly amounts (unit_amount times quantity over
100), rounded to two decimals per subscription, with the grand total
rounded to two decimals; on the round-trip snapshot the result is 40.00
over 2 subscriptions without trials and 50.00 over 3 with trials. -/
theorem mrr_tool_includes_active_and_sums :
    (∀ (sub : StripeSubscription) (b : Bool),
      isSubscriptionActiveForMRR sub b = true ↔
        (sub.status = "active" ∨ sub.status = "past_due" ∨
          (b = true ∧ sub.status = "trialing"))) ∧
    (∀ (b : Bool) (subs : List StripeSubscription), subs ≠ [] →
      (∀ sub ∈ subs, isSubscriptionActiveForMRR sub b = true → subItemsOK sub = true) →
      ∃ r : MRRResult, stripeMRRTool b none subs = .ok r ∧
        r.totalMRR = round2 (((subs.filter (isSubscriptionActiveForMRR · b)).map
          specSubscriptionMRR).sum) ∧
        r.activeSubscriptions = (subs.filter (isSubscriptionActiveForMRR · b)).length ∧
        r.breakdown = (subs.filter (isSubscriptionActiveForMRR · b)).map fun sub =>
          { subscriptionId := sub.id, customerMRR := specSubscriptionMRR sub,
            billingInterval := subscriptionBillingInterval sub }) ∧
    ((stripeMRRTool false none roundTripSnapshot).map
      (fun r => (r.totalMRR, r.activeSubscriptions)) = .ok (40, 2)) ∧
    ((stripeMRRTool true none roundTripSnapshot).map
      (fun r => (r.totalMRR, r.activeSubscriptions)) = .ok (50, 3)) := by
  refine ⟨?_, ?_, ?_, ?_⟩
  · intro sub b
    cases b <;> simp [isSubscriptionActiveForMRR]
  · intro b subs hne hwf
    exact ⟨_, stripeMRRTool_ok hne hwf, rfl, rfl, rfl⟩
  · norm_num [stripeMRRTool, mrrActiveFiltered, filterByCurrency, isSubscriptionActiveForMRR,
      mrrLoop, calculateSubscriptionMRR, mrrItemsTotal, normalizeBillingPeriodToMonthly,
      normalizeRawMonthly, jsTruthyAmount, round2, jsRound, roundTripSnapshot,
      subscriptionBillingInterval, getBillingIntervalDescription, bind, Except.bind,
      pure, Except.pure, Except.map, List.filter]
    try simp +decide
    try norm_num [round2, jsRound]
  · norm_num [stripeMRRTool, mrrActiveFiltered, filterByCurrency, isSubscriptionActiveForMRR,
      mrrLoop, calculateSubscriptionMRR, mrrItemsTotal, normalizeBillingPeriodToMonthly,
      normalizeRawMonthly, jsTruthyAmount, round2, jsRound, roundTripSnapshot,
      subscriptionBillingInterval, getBillingIntervalDescription, bind, Except.bind,
      pure, Except.pure, Except.map, List.filter]
    try simp +decide
    try norm_num [round2, jsRound]

/-- Witness for claim C1, instantiated at the round-trip snapshot without
trial subscriptions. -/
theorem mrr_tool_includes_active_and_sums_witness :
    ∃ r : MRRResult, stripeMRRTool false none roundTripSnapshot = .ok r ∧
      r.totalMRR = round2 (((roundTripSnapshot.filter
        (isSubscriptionActiveForMRR · false)).map specSubscriptionMRR).sum) ∧
      r.activeSubscriptions = (roundTripSnapshot.filter
        (isSubscriptionActiveForMRR · false)).length ∧
      r.breakdown = (roundTripSnapshot.filter
        (isSubscriptionActiveForMRR · false)).map fun sub =>
          { subscriptionId := sub.id, customerMRR := specSubscriptionMRR sub,
            billingInterval := subscriptionBillingInterval sub } :=
  mrr_tool_includes_active_and_sums.2.1 false roundTripSnapshot
    (by simp [roundTripSnapshot])
    (by
      intro sub hs _
      fin_cases hs <;>
      · try norm_num [subItemsOK, itemOK, jsTruthyAmount, supportedInterval]
        try simp +decide)

/-- Claim C3: for every non-empty snapshot the churn calculator selects
among exactly three branches: positive at-start unique-customer count
gives churned/atStart*100, otherwise a positive acquired-in-period count
gives churnedNew/new*100, otherwise zero, each rounded to two decimals,
and retention is 100 minus churn rate rounded to two decimals; 5
customers at start with 2 churned give 40.00 and 60.00, and 0 at start
with 3 new and 1 churned-new give 33.33. -/
theorem churn_rate_three_branches :
    (∀ (periodDays : ℚ) (currency : Option String) (subs : List StripeSubscription)
      (nowSec : ℚ), subs ≠ [] →
      ∃ r : ChurnResult, stripeChurnRateTool periodDays currency subs nowSec = .ok r ∧
        r.totalCustomersAtStart = specUniqueCustomersWhere
          (fun s => s.created < nowSec - periodDays * (24 * 60 * 60))
          (filterByCurrency currency subs) ∧
        r.newCustomersInPeriod = specUniqueCustomersWhere
          (fun s => nowSec - periodDays * (24 * 60 * 60) ≤ s.created ∧ s.created ≤ nowSec)
          (filterByCurrency currency subs) ∧
        r.churnedCustomersCount = specUniqueCustomersWhere
          (fun s => canceledInPeriod (nowSec - periodDays * (24 * 60 * 60)) nowSec s = true)
          (filterByCurrency currency subs) ∧
        r.churnRate =
          (if r.totalCustomersAtStart > 0 then
            round2 ((r.churnedCustomersCount : ℚ) / (r.totalCustomersAtStart : ℚ) * 100)
           else if r.newCustomersInPeriod > 0 then
            round2 ((r.churnedNewCustomers : ℚ) / (r.newCustomersInPeriod : ℚ) * 100)
           else 0) ∧
        r.retentionRate = round2 (100 - r.churnRate)) ∧
    ((stripeChurnRateTool 30 none churnTraditionalSnapshot 1000000000).map
      (fun r => (r.churnRate, r.retentionRate, r.totalCustomersAtStart,
        r.churnedCustomersCount)) = .ok (40, 60, 5, 2)) ∧
    ((stripeChurnRateTool 30 none churnNewBusinessSnapshot 1000000000).map
      (fun r => (r.churnRate, r.totalCustomersAtStart, r.newCustomersInPeriod,
        r.churnedNewCustomers)) = .ok (3333/100, 0, 3, 1)) := by
  refine ⟨?_, ?_, ?_⟩
  · intro pd cur subs now hne
    refine ⟨_, stripeChurnRateTool_ok hne, churn_totalCustomersAtStart pd cur subs now,
      churn_newCustomersInPeriod pd cur subs now,
      churn_churnedCustomersCount pd cur subs now, ?_, churn_retention pd cur subs now⟩
    rw [churn_rate_branches]
    by_cases h1 : (churnRateResult pd cur subs now).totalCustomersAtStart > 0
    · simp only [if_pos h1]
      rw [calculateChurnRate, if_neg (by omega)]
    · simp only [if_neg h1]
  · rw [stripeChurnRateTool_ok (by simp [churnTraditionalSnapshot])]
    refine congrArg Except.ok ?_
    refine Prod.ext ?_ (Prod.ext ?_ (Prod.ext ?_ ?_)) <;>
    · norm_num [churnRateResult, filterByCurrency, churnCohorts, identifyChurnedCustomers,
        canceledInPeriod, insertUniq, countChurnedNew, calculateChurnRate, round2, jsRound,
        churnTraditionalSnapshot, List.foldl, List.filter]
      try simp +decide
      try norm_num [round2, jsRound]
  · rw [stripeChurnRateTool_ok (by simp [churnNewBusinessSnapshot])]
    refine congrArg Except.ok ?_
    refine Prod.ext ?_ (Prod.ext ?_ (Prod.ext ?_ ?_)) <;>
    · norm_num [churnRateResult, filterByCurrency, churnCohorts, identifyChurnedCustomers,
        canceledInPeriod, insertUniq, countChurnedNew, calculateChurnRate, round2, jsRound,
        churnNewBusinessSnapshot, List.foldl, List.filter]
      try simp +decide
      try norm_num [round2, jsRound]

/-- Witness for claim C3, instantiated at the traditional-branch
snapshot. -/
theorem churn_rate_three_branches_witness :
    ∃ r : ChurnResult,
      stripeChurnRateTool 30 none churnTraditionalSnapshot 1000000000 = .ok r ∧
      r.totalCustomersAtStart = specUniqueCustomersWhere
        (fun s => s.created < 1000000000 - 30 * (24 * 60 * 60))
        (filterByCurrency none churnTraditionalSnapshot) ∧
      r.newCustomersInPeriod = specUniqueCustomersWhere
        (fun s => 1000000000 - 30 * (24 * 60 * 60) ≤ s.created ∧ s.created ≤ 1000000000)
        (filterByCurrency none churnTraditionalSnapshot) ∧
      r.churnedCustomersCount = specUniqueCustomersWhere
        (fun s => canceledInPeriod (1000000000 - 30 * (24 * 60 * 60)) 1000000000 s = true)
        (filterByCurrency none churnTraditionalSnapshot) ∧
      r.churnRate =
        (if r.totalCustomersAtStart > 0 then
          round2 ((r.churnedCustomersCount : ℚ) / (r.totalCustomersAtStart : ℚ) * 100)
         else if r.newCustomersInPeriod > 0 then
          round2 ((r.churnedNewCustomers : ℚ) / (r.newCustomersInPeriod : ℚ) * 100)
         else 0) ∧
      r.retentionRate = round2 (100 - r.churnRate) :=
  churn_rate_three_branches.1 30 none churnTraditionalSnapshot 1000000000
    (by simp [churnTraditionalSnapshot])

/-- Claim C5: for every non-empty snapshot, ARPU is the rounded quotient
of the total MRR and the unique customer count, both computed over the
same active- and currency-filtered subscription list, and a zero customer
count yields ARPU 0 without a division error; MRR 60 over 3 unique
customers gives ARPU 20.00. -/
theorem arpu_division_and_zero_guard :
    (∀ (b : Bool) (cur : Option String) (subs : List StripeSubscription),
      subs ≠ [] →
      (∀ sub ∈ subs, isSubscriptionActiveForMRR sub b = true → subItemsOK sub = true) →
      ∃ r : ARPUResult, stripeARPUTool b cur subs = .ok r ∧
        r.totalMRR = round2 (((mrrActiveFiltered b cur subs).map specSubscriptionMRR).sum) ∧
        r.uniqueCustomers = specUniqueCustomers (mrrActiveFiltered b cur subs) ∧
        r.arpu = (if r.uniqueCustomers = 0 then 0
                  else round2 (r.totalMRR / (r.uniqueCustomers : ℚ)))) ∧
    ((stripeARPUTool false none arpuSnapshot).map
      (fun r => (r.arpu, r.totalMRR, r.uniqueCustomers)) = .ok (20, 60, 3)) := by
  constructor
  · intro b cur subs hne hwf
    refine ⟨_, stripeARPUTool_ok hne hwf, ?_, ?_, ?_⟩
    · exact (round2_fix (mappedMRR_sum_isCents _)).symm
    · exact calculateUniqueCustomerCount_eq _
    · rfl
  · norm_num [stripeARPUTool, mrrActiveFiltered, filterByCurrency, isSubscriptionActiveForMRR,
      arpuLoop, calculateSubscriptionMRR, mrrItemsTotal, normalizeBillingPeriodToMonthly,
      normalizeRawMonthly, jsTruthyAmount, round2, jsRound, arpuSnapshot,
      calculateUniqueCustomerCount, insertUniq, calculateARPU,
      subscriptionBillingInterval, getBillingIntervalDescription, bind, Except.bind,
      pure, Except.pure, Except.map, List.filter, List.foldl]
    try simp +decide
    try norm_num [round2, jsRound]

/-- Witness for claim C5, instantiated at the three-customer snapshot. -/
theorem arpu_division_and_zero_guard_witness :
    ∃ r : ARPUResult, stripeARPUTool false none arpuSnapshot = .ok r ∧
      r.totalMRR = round2 (((mrrActiveFiltered false none arpuSnapshot).map
        specSubscriptionMRR).sum) ∧
      r.uniqueCustomers = specUniqueCustomers (mrrActiveFiltered false none arpuSnapshot) ∧
      r.arpu = (if r.uniqueCustomers = 0 then 0
                else round2 (r.totalMRR / (r.uniqueCustomers : ℚ))) :=
  arpu_division_and_zero_guard.1 false none arpuSnapshot (by simp [arpuSnapshot])
    (by
      intro sub hs _
      fin_cases hs <;>
      · try norm_num [subItemsOK, itemOK, jsTruthyAmount, supportedInterval]
        try simp +decide)

/-- Claim C4: for every non-empty snapshot the LTV calculator combines
the ARPU and churn sub-results: a zero churn rate yields the sentinel
values 1000000 and 10000, otherwise LTV and months-to-churn are the
rounded quotients by the monthly churn fraction, clamped to the ceilings
1000000 and 10000, and no error is raised. -/
theorem ltv_combines_arpu_and_churn :
    ∀ (b : Bool) (churnPeriodDays : ℚ) (cur : Option String)
      (subs : List StripeSubscription) (nowSec : ℚ),
      subs ≠ [] → 0 < churnPeriodDays →
      (∀ sub ∈ subs, isSubscriptionActiveForMRR sub b = true → subItemsOK sub = true) →
      ∃ r : LTVResult, stripeLTVTool b churnPeriodDays cur subs nowSec = .ok r ∧
        (r.churnRate = 0 → r.ltv = 1000000 ∧ r.monthsToChurn = 10000) ∧
        (r.churnRate ≠ 0 →
          r.ltv = (if round2 (r.arpu / (r.churnRate / 100 * (30 / churnPeriodDays))) > 1000000
                   then 1000000
                   else round2 (r.arpu / (r.churnRate / 100 * (30 / churnPeriodDays)))) ∧
          r.monthsToChurn =
            (if round2 (1 / (r.churnRate / 100 * (30 / churnPeriodDays))) > 10000 then 10000
             else round2 (1 / (r.churnRate / 100 * (30 / churnPeriodDays))))) := by
  intro b cpd cur subs now hne hcpd hwf
  obtain ⟨A, hA⟩ : ∃ A, stripeARPUTool b cur subs = .ok A :=
    ⟨_, @stripeARPUTool_ok b cur subs hne hwf⟩
  refine ⟨ltvCombine cpd A (churnRateResult cpd cur subs now), ?_, ?_, ?_⟩
  · rw [stripeLTVTool, if_neg (by simp [isEmpty_false_of_ne_nil hne])]
    simp only [hA, @stripeChurnRateTool_ok cpd cur subs now hne, bind, Except.bind,
      pure, Except.pure]
  · intro h0
    have h0c : (churnRateResult cpd cur subs now).churnRate = 0 := h0
    constructor <;> norm_num [ltvCombine, h0c, maxSafeInteger]
  · intro hne0
    have hdec : (churnRateResult cpd cur subs now).churnRate / 100 ≠ 0 :=
      div_ne_zero hne0 (by norm_num)
    constructor <;> · simp only [ltvCombine, if_neg hdec]

/-- Witness for claim C4, instantiated at a snapshot with ARPU 30 and
churn rate 50 over a 30 day period. -/
theorem ltv_combines_arpu_and_churn_witness :
    ∃ r : LTVResult, stripeLTVTool false 30 none ltvSnapshot 1000000000 = .ok r ∧
      (r.churnRate = 0 → r.ltv = 1000000 ∧ r.monthsToChurn = 10000) ∧
      (r.churnRate ≠ 0 →
        r.ltv = (if round2 (r.arpu / (r.churnRate / 100 * (30 / 30))) > 1000000 then 1000000
                 else round2 (r.arpu / (r.churnRate / 100 * (30 / 30)))) ∧
        r.monthsToChurn =
          (if round2 (1 / (r.churnRate / 100 * (30 / 30))) > 10000 then 10000
           else round2 (1 / (r.churnRate / 100 * (30 / 30))))) :=
  ltv_combines_arpu_and_churn false 30 none ltvSnapshot 1000000000
    (by simp [ltvSnapshot]) (by norm_num)
    (by
      intro sub hs _
      fin_cases hs <;>
      · try norm_num [subItemsOK, itemOK, jsTruthyAmount, supportedInterval]
        try simp +decide)

/-- Claim C6 counterexample: filtered to eur, the mixed-currency
subscription is kept whole and its usd line item is included in the MRR
total, which therefore is 30; excluding the non-matching line items, as
the claim demands, would give 10. -/
theorem currency_filter_keeps_nonmatching_items :
    ((stripeMRRTool false (some ("eur")) mixedCurrencySnapshot).map
      (fun r => (r.totalMRR, r.activeSubscriptions, r.currency)) = .ok (30, 1, "eur")) ∧
    specCurrencyRestrictedMRR ("eur") mixedCurrencySub = 10 ∧
    (30 : ℚ) ≠ 10 := by
  refine ⟨?_, ?_, by norm_num⟩
  · norm_num [stripeMRRTool, mrrActiveFiltered, filterByCurrency, isSubscriptionActiveForMRR,
      subMatchesCurrency, jsToLowerCase,
      mrrLoop, calculateSubscriptionMRR, mrrItemsTotal, normalizeBillingPeriodToMonthly,
      normalizeRawMonthly, jsTruthyAmount, round2, jsRound, mixedCurrencySnapshot,
      mixedCurrencySub,
      subscriptionBillingInterval, getBillingIntervalDescription, bind, Except.bind,
      pure, Except.pure, Except.map, List.filter, List.any]
    try simp +decide
    try norm_num [round2, jsRound]
  · norm_num [specCurrencyRestrictedMRR, mixedCurrencySub, specItemMonthly,
      specMonthlyRate, jsTruthyAmount, jsToLowerCase, round2, jsRound, List.filter]
    try simp +decide
    try norm_num [round2, jsRound]

theorem stripeMRRExpansionTool_body (pd : ℚ) (cur : Option String)
    (subs : List StripeSubscription) (now : ℚ) (hne : subs ≠ []) :
    stripeMRRExpansionTool pd cur subs now =
      (expansionGroupsLoop (now - pd * (24 * 60 * 60)) now ⟨0, 0, 0⟩
        (customerSubscriptionGroups (filterByCurrency cur subs))).map
        (fun acc =>
          { expansionMRR := round2 acc.expansionMRR
            expansionRate :=
              if acc.startingMRR > 0 then round2 (acc.expansionMRR / acc.startingMRR * 100)
              else 0
            totalUpgrades := acc.totalUpgrades
            totalDowngrades := 0
            netExpansion := acc.expansionMRR
            averageExpansionPerUpgrade :=
              if acc.totalUpgrades > 0 then
                round2 (acc.expansionMRR / (acc.totalUpgrades : ℚ))
              else 0
            currency := cur.getD ("usd")
            periodDays := pd }) := by
  rw [stripeMRRExpansionTool, if_neg (by simp [isEmpty_false_of_ne_nil hne])]
  cases hloop : expansionGroupsLoop (now - pd * (24 * 60 * 60)) now ⟨0, 0, 0⟩
      (customerSubscriptionGroups (filterByCurrency cur subs)) with
  | error e => simp [hloop, bind, Except.bind, Except.map]
  | ok acc => simp [hloop, bind, Except.bind, pure, Except.pure, Except.map]

/-- Claim C6 (amended): a subscription is kept iff at least one of its
line items carries exactly the lowercased requested currency (the request
is case-normalized, the stored currencies are compared verbatim); every
line item of a kept subscription contributes to the metric, matching or
not; the MRR, ARPU and expansion currency output fields echo the request
verbatim and default to usd; and the churn and expansion calculators with
a currency filter behave exactly as the unfiltered calculators on the
pre-filtered list (the expansion results agreeing in every field but the
echoed currency). -/
theorem currency_filter_amended :
    (∀ (requested : String) (sub : StripeSubscription),
      subMatchesCurrency requested sub = true ↔
        ∃ item ∈ sub.items, item.price.currency = jsToLowerCase requested) ∧
    (∀ (b : Bool) (c : String) (subs : List StripeSubscription),
      subs ≠ [] →
      (∀ sub ∈ subs, isSubscriptionActiveForMRR sub b = true → subItemsOK sub = true) →
      ∃ r : MRRResult, stripeMRRTool b (some c) subs = .ok r ∧
        r.currency = c ∧
        r.totalMRR = round2 ((((subs.filter (isSubscriptionActiveForMRR · b)).filter
          (subMatchesCurrency c)).map specSubscriptionMRR).sum) ∧
        r.activeSubscriptions = ((subs.filter (isSubscriptionActiveForMRR · b)).filter
          (subMatchesCurrency c)).length) ∧
    (∀ (b : Bool) (subs : List StripeSubscription), subs ≠ [] →
      (∀ sub ∈ subs, isSubscriptionActiveForMRR sub b = true → subItemsOK sub = true) →
      ∃ r : MRRResult, stripeMRRTool b none subs = .ok r ∧ r.currency = "usd") ∧
    (∀ (pd : ℚ) (c : String) (subs : List StripeSubscription) (now : ℚ),
      subs ≠ [] → subs.filter (subMatchesCurrency c) ≠ [] →
      stripeChurnRateTool pd (some c) subs now =
        stripeChurnRateTool pd none (subs.filter (subMatchesCurrency c)) now) ∧
    (∀ (b : Bool) (c : String) (subs : List StripeSubscription),
      subs ≠ [] →
      (∀ sub ∈ subs, isSubscriptionActiveForMRR sub b = true → subItemsOK sub = true) →
      ∃ r : ARPUResult, stripeARPUTool b (some c) subs = .ok r ∧
        r.currency = c ∧
        r.totalMRR = round2 ((((subs.filter (isSubscriptionActiveForMRR · b)).filter
          (subMatchesCurrency c)).map specSubscriptionMRR).sum) ∧
        r.uniqueCustomers = specUniqueCustomers ((subs.filter
          (isSubscriptionActiveForMRR · b)).filter (subMatchesCurrency c)) ∧
        r.activeSubscriptions = ((subs.filter (isSubscriptionActiveForMRR · b)).filter
          (subMatchesCurrency c)).length) ∧
    (∀ (b : Bool) (subs : List StripeSubscription), subs ≠ [] →
      (∀ sub ∈ subs, isSubscriptionActiveForMRR sub b = true → subItemsOK sub = true) →
      ∃ r : ARPUResult, stripeARPUTool b none subs = .ok r ∧ r.currency = "usd") ∧
    (∀ (pd : ℚ) (cur : Option String) (subs : List StripeSubscription) (now : ℚ)
      (r : ExpansionResult),
      stripeMRRExpansionTool pd cur subs now = .ok r → r.currency = cur.getD ("usd")) ∧
    (∀ (pd : ℚ) (c : String) (subs : List StripeSubscription) (now : ℚ),
      subs ≠ [] → subs.filter (subMatchesCurrency c) ≠ [] →
      (stripeMRRExpansionTool pd (some c) subs now).map
        (fun r => (r.expansionMRR, r.expansionRate, r.totalUpgrades, r.totalDowngrades,
          r.netExpansion, r.averageExpansionPerUpgrade, r.periodDays)) =
      (stripeMRRExpansionTool pd none (subs.filter (subMatchesCurrency c)) now).map
        (fun r => (r.expansionMRR, r.expansionRate, r.totalUpgrades, r.totalDowngrades,
          r.netExpansion, r.averageExpansionPerUpgrade, r.periodDays))) := by
  refine ⟨?_, ?_, ?_, ?_, ?_, ?_, ?_, ?_⟩
  · intro requested sub
    simp [subMatchesCurrency, List.any_eq_true]
  · intro b c subs hne hwf
    exact ⟨_, stripeMRRTool_ok hne hwf, rfl, rfl, rfl⟩
  · intro b subs hne hwf
    exact ⟨_, stripeMRRTool_ok hne hwf, rfl⟩
  · intro pd c subs now hne hfne
    rw [stripeChurnRateTool_ok hne, stripeChurnRateTool_ok hfne]
    rfl
  · intro b c subs hne hwf
    refine ⟨_, stripeARPUTool_ok hne hwf, rfl, ?_, ?_, rfl⟩
    · exact (round2_fix (mappedMRR_sum_isCents _)).symm
    · exact calculateUniqueCustomerCount_eq _
  · intro b subs hne hwf
    exact ⟨_, stripeARPUTool_ok hne hwf, rfl⟩
  · intro pd cur subs now r hr
    by_cases hne : subs = []
    · rw [hne] at hr
      exact absurd hr (by simp [stripeMRRExpansionTool])
    · rw [stripeMRRExpansionTool_body pd cur subs now hne] at hr
      cases hloop : expansionGroupsLoop (now - pd * (24 * 60 * 60)) now ⟨0, 0, 0⟩
          (customerSubscriptionGroups (filterByCurrency cur subs)) with
      | error e =>
        rw [hloop] at hr
        exact absurd hr (by simp [Except.map])
      | ok acc =>
        rw [hloop] at hr
        simp only [Except.map, Except.ok.injEq] at hr
        rw [← hr]
  · intro pd c subs now hne hfne
    rw [stripeMRRExpansionTool_body pd (some c) subs now hne,
      stripeMRRExpansionTool_body pd none (subs.filter (subMatchesCurrency c)) now hfne,
      show filterByCurrency (some c) subs = subs.filter (subMatchesCurrency c) from rfl,
      show filterByCurrency none (subs.filter (subMatchesCurrency c)) =
        subs.filter (subMatchesCurrency c) from rfl]
    cases hloop : expansionGroupsLoop (now - pd * (24 * 60 * 60)) now ⟨0, 0, 0⟩
        (customerSubscriptionGroups (subs.filter (subMatchesCurrency c))) with
    | error e => simp [hloop, Except.map]
    | ok acc => simp [hloop, Except.map]

/-- Witness for the amended claim C6, instantiated at the mixed-currency
snapshot filtered to eur. -/
theorem currency_filter_amended_witness :
    ∃ r : MRRResult, stripeMRRTool false (some ("eur")) mixedCurrencySnapshot = .ok r ∧
      r.currency = "eur" ∧
      r.totalMRR = round2 ((((mixedCurrencySnapshot.filter
        (isSubscriptionActiveForMRR · false)).filter
        (subMatchesCurrency ("eur"))).map specSubscriptionMRR).sum) ∧
      r.activeSubscriptions = ((mixedCurrencySnapshot.filter
        (isSubscriptionActiveForMRR · false)).filter
        (subMatchesCurrency ("eur"))).length :=
  currency_filter_amended.2.1 false ("eur") mixedCurrencySnapshot
    (by simp [mixedCurrencySnapshot])
    (by
      intro sub hs _
      fin_cases hs <;>
      · try norm_num [subItemsOK, itemOK, jsTruthyAmount, supportedInterval,
          mixedCurrencySub]
        try simp +decide)

/-- Claim C7: every calculator fails with NoDataProvided on an empty
snapshot, while a non-empty snapshot that becomes empty after the active
and currency filtering is not an error: the MRR and ARPU tools return a
complete result with zero MRR, zero included subscriptions and an empty
breakdown. -/
theorem empty_snapshot_error_and_empty_filter_ok :
    (∀ (b : Bool) (cur : Option String),
      stripeMRRTool b cur [] = .error .noDataProvided) ∧
    (∀ (b : Bool) (cur : Option String),
      stripeARPUTool b cur [] = .error .noDataProvided) ∧
    (∀ (pd : ℚ) (cur : Option String) (now : ℚ),
      stripeChurnRateTool pd cur [] now = .error .noDataProvided) ∧
    (∀ (b : Bool) (cpd : ℚ) (cur : Option String) (now : ℚ),
      stripeLTVTool b cpd cur [] now = .error .noDataProvided) ∧
    (∀ (pd : ℚ) (cur : Option String) (now : ℚ),
      stripeMRRExpansionTool pd cur [] now = .error .noDataProvided) ∧
    (∀ (b : Bool) (cur : Option String) (subs : List StripeSubscription),
      subs ≠ [] → mrrActiveFiltered b cur subs = [] →
      stripeMRRTool b cur subs =
        .ok { totalMRR := 0, currency := cur.getD ("usd"),
              activeSubscriptions := 0, breakdown := [] }) ∧
    (∀ (b : Bool) (cur : Option String) (subs : List StripeSubscription),
      subs ≠ [] → mrrActiveFiltered b cur subs = [] →
      stripeARPUTool b cur subs =
        .ok { arpu := 0, totalMRR := 0, uniqueCustomers := 0,
              currency := cur.getD ("usd"), activeSubscriptions := 0,
              breakdown := [] }) := by
  refine ⟨fun _ _ => rfl, fun _ _ => rfl, fun _ _ _ => rfl, fun _ _ _ _ => rfl,
    fun _ _ _ => rfl, ?_, ?_⟩
  · intro b cur subs hne hfil
    rw [stripeMRRTool, if_neg (by simp [isEmpty_false_of_ne_nil hne]), hfil]
    simp [mrrLoop, bind, Except.bind, pure, Except.pure, round2_zero]
  · intro b cur subs hne hfil
    rw [stripeARPUTool, if_neg (by simp [isEmpty_false_of_ne_nil hne]), hfil]
    simp [arpuLoop, calculateUniqueCustomerCount, calculateARPU, bind, Except.bind,
      pure, Except.pure, round2_zero]

/-- Witness for claim C7, instantiated at a snapshot whose only
subscription is canceled, so the active filter leaves nothing. -/
theorem empty_snapshot_error_and_empty_filter_ok_witness :
    stripeMRRTool false none canceledOnlySnapshot =
      .ok { totalMRR := 0, currency := "usd", activeSubscriptions := 0, breakdown := [] } ∧
    stripeARPUTool false none canceledOnlySnapshot =
      .ok { arpu := 0, totalMRR := 0, uniqueCustomers := 0, currency := "usd",
            activeSubscriptions := 0, breakdown := [] } := by
  have hfil : mrrActiveFiltered false none canceledOnlySnapshot = [] := by
    norm_num [mrrActiveFiltered, filterByCurrency, isSubscriptionActiveForMRR,
      canceledOnlySnapshot, List.filter]
    try simp +decide
  exact ⟨empty_snapshot_error_and_empty_filter_ok.2.2.2.2.2.1 false none
      canceledOnlySnapshot (by simp [canceledOnlySnapshot]) hfil,
    empty_snapshot_error_and_empty_filter_ok.2.2.2.2.2.2 false none
      canceledOnlySnapshot (by simp [canceledOnlySnapshot]) hfil⟩

/-- Claim C8 counterexample: a record lacking the customer field, created
before the period start, is counted by the churn calculator as one
customer at start (the claim demands its exclusion from that count),
while the ARPU calculator does exclude it from its unique-customer
count. -/
theorem churn_counts_missing_customer :
    ((stripeChurnRateTool 30 none missingCustomerSnapshot 1000000000).map
      (fun r => r.totalCustomersAtStart) = .ok 1) ∧
    ((stripeARPUTool false none missingCustomerSnapshot).map
      (fun r => r.uniqueCustomers) = .ok 0) ∧
    (1 : Nat) ≠ 0 := by
  refine ⟨?_, ?_, by norm_num⟩
  · rw [stripeChurnRateTool_ok (by simp [missingCustomerSnapshot])]
    refine congrArg Except.ok ?_
    norm_num [churnRateResult, filterByCurrency, churnCohorts, identifyChurnedCustomers,
      canceledInPeriod, insertUniq, countChurnedNew, calculateChurnRate, round2, jsRound,
      missingCustomerSnapshot, List.foldl, List.filter]
  · norm_num [stripeARPUTool, mrrActiveFiltered, filterByCurrency, isSubscriptionActiveForMRR,
      arpuLoop, calculateSubscriptionMRR, mrrItemsTotal, jsTruthyAmount, round2, jsRound,
      missingCustomerSnapshot, calculateUniqueCustomerCount, insertUniq, calculateARPU,
      subscriptionBillingInterval, bind, Except.bind,
      pure, Except.pure, Except.map, List.filter, List.foldl]
    try simp +decide

/-- Claim C8 (amended): an empty items sequence and line items lacking a
truthy unit_amount or a recurring descriptor contribute zero MRR and
raise no error; records without a truthy customer field are excluded
from the unique-customer count used by the ARPU and active-subscriber
analyses; the churn calculator, however, inserts the customer field as
stored into its cohort sets, so a record lacking the customer field is
counted there as one distinct pseudo-customer value rather than being
excluded. -/
theorem missing_fields_tolerated_amended :
    (∀ sub : StripeSubscription, sub.items = [] →
      calculateSubscriptionMRR sub = .ok 0) ∧
    (∀ (s : StripeSubscription) (pre post : List SubscriptionItem)
      (item : SubscriptionItem),
      jsTruthyAmount item.price.unit_amount = false ∨ item.price.recurring = none →
      calculateSubscriptionMRR { s with items := pre ++ item :: post } =
        calculateSubscriptionMRR { s with items := pre ++ post }) ∧
    (∀ (pre post : List StripeSubscription) (s : StripeSubscription),
      jsTruthyCustomer s.customer = false →
      calculateUniqueCustomerCount (pre ++ s :: post) =
        calculateUniqueCustomerCount (pre ++ post)) ∧
    (∀ (pd : ℚ) (cur : Option String) (subs : List StripeSubscription) (now : ℚ),
      subs ≠ [] →
      ∃ r : ChurnResult, stripeChurnRateTool pd cur subs now = .ok r ∧
        r.totalCustomersAtStart = specUniqueCustomersWhere
          (fun s => s.created < now - pd * (24 * 60 * 60))
          (filterByCurrency cur subs)) := by
  refine ⟨?_, ?_, ?_, ?_⟩
  · intro sub hitems
    rw [calculateSubscriptionMRR, hitems]
    simp [mrrItemsTotal, Except.map, round2_zero]
  · intro s pre post item hskip
    have hstep : ∀ X : List SubscriptionItem,
        mrrItemsTotal (item :: X) = mrrItemsTotal X := by
      intro X
      rcases hskip with ht | hrec
      · rw [mrrItemsTotal, if_neg (by simp [ht])]
      · by_cases ht : jsTruthyAmount item.price.unit_amount = true
        · rw [mrrItemsTotal, if_pos ht, hrec]
        · rw [mrrItemsTotal, if_neg ht]
    rw [calculateSubscriptionMRR, calculateSubscriptionMRR]
    refine congrArg (Except.map round2) ?_
    show mrrItemsTotal (pre ++ item :: post) = mrrItemsTotal (pre ++ post)
    induction pre with
    | nil => rw [List.nil_append, List.nil_append, hstep]
    | cons p pre ih =>
      rw [List.cons_append, List.cons_append, mrrItemsTotal, mrrItemsTotal, ih]
  · intro pre post s hs
    rw [calculateUniqueCustomerCount, calculateUniqueCustomerCount,
      List.foldl_append, List.foldl_append, List.foldl_cons]
    cases hc : s.customer with
    | none => simp [hc]
    | some c =>
      have he : c = "" := by
        by_contra hne
        rw [jsTruthyCustomer.eq_def, hc] at hs
        simp [hne] at hs
      simp [hc, he]
  · intro pd cur subs now hne
    exact ⟨_, stripeChurnRateTool_ok hne, churn_totalCustomersAtStart pd cur subs now⟩

/-- Witness for the amended claim C8, instantiated at an itemless record,
a line item without a recurring descriptor, a record without a customer
field, and the missing-customer snapshot. -/
theorem missing_fields_tolerated_amended_witness :
    calculateSubscriptionMRR
      { id := "w1", status := "active", customer := none, created := 0,
        canceled_at := none, cancel_at_period_end := false, items := [] } = .ok 0 ∧
    calculateUniqueCustomerCount
      ([] ++ { id := "w2", status := "active", customer := none, created := 0,
               canceled_at := none, cancel_at_period_end := false,
               items := [] } :: []) = calculateUniqueCustomerCount ([] ++ []) ∧
    (∃ r : ChurnResult,
      stripeChurnRateTool 30 none missingCustomerSnapshot 1000000000 = .ok r ∧
      r.totalCustomersAtStart = specUniqueCustomersWhere
        (fun s => s.created < 1000000000 - 30 * (24 * 60 * 60))
        (filterByCurrency none missingCustomerSnapshot)) :=
  ⟨missing_fields_tolerated_amended.1 _ rfl,
   missing_fields_tolerated_amended.2.2.1 [] [] _ rfl,
   missing_fields_tolerated_amended.2.2.2 30 none missingCustomerSnapshot 1000000000
     (by simp [missingCustomerSnapshot])⟩

/-- Claim C9 counterexample: the churn calculator reads the clock, so the
same snapshot with the same parameters yields churn rate 100 at clock
sample 2000 and churn rate 0 at clock sample 1000000000. -/
theorem churn_depends_on_clock :
    ((stripeChurnRateTool 30 none clockDependentSnapshot 2000).map
      (fun r => r.churnRate) = .ok 100) ∧
    ((stripeChurnRateTool 30 none clockDependentSnapshot 1000000000).map
      (fun r => r.churnRate) = .ok 0) ∧
    (100 : ℚ) ≠ 0 := by
  refine ⟨?_, ?_, by norm_num⟩ <;>
  · rw [stripeChurnRateTool_ok (by simp [clockDependentSnapshot])]
    refine congrArg Except.ok ?_
    norm_num [churnRateResult, filterByCurrency, churnCohorts, identifyChurnedCustomers,
      canceledInPeriod, insertUniq, countChurnedNew, calculateChurnRate, round2, jsRound,
      clockDependentSnapshot, List.foldl, List.filter]
    try simp +decide
    try norm_num [round2, jsRound]

/-- Claim C9 (amended): every calculator is a deterministic function of
the snapshot, the parameters, and the clock value sampled at invocation,
so repeated evaluation with the same inputs and the same clock sample
yields identical output; the MRR and ARPU calculators take no clock input
at all, while the churn, expansion and LTV calculators genuinely depend
on the sampled clock: there is a snapshot on which two clock samples give
different churn results. -/
theorem calculators_deterministic_given_clock :
    (∀ (b : Bool) (cur : Option String) (subs : List StripeSubscription),
      stripeMRRTool b cur subs = stripeMRRTool b cur subs ∧
      stripeARPUTool b cur subs = stripeARPUTool b cur subs) ∧
    (∀ (pd : ℚ) (cur : Option String) (subs : List StripeSubscription) (now : ℚ),
      stripeChurnRateTool pd cur subs now = stripeChurnRateTool pd cur subs now ∧
      stripeMRRExpansionTool pd cur subs now = stripeMRRExpansionTool pd cur subs now) ∧
    (∀ (b : Bool) (cpd : ℚ) (cur : Option String) (subs : List StripeSubscription)
      (now : ℚ), stripeLTVTool b cpd cur subs now = stripeLTVTool b cpd cur subs now) ∧
    (∃ (subs : List StripeSubscription) (now1 now2 : ℚ),
      stripeChurnRateTool 30 none subs now1 ≠ stripeChurnRateTool 30 none subs now2) := by
  refine ⟨fun _ _ _ => ⟨rfl, rfl⟩, fun _ _ _ _ => ⟨rfl, rfl⟩, fun _ _ _ _ _ => rfl,
    clockDependentSnapshot, 2000, 1000000000, fun heq => ?_⟩
  rw [stripeChurnRateTool_ok (by simp [clockDependentSnapshot]),
    stripeChurnRateTool_ok (by simp [clockDependentSnapshot])] at heq
  have hrate := congrArg ChurnResult.churnRate (Except.ok.inj heq)
  have h1 : (churnRateResult 30 none clockDependentSnapshot 2000).churnRate = 100 := by
    norm_num [churnRateResult, filterByCurrency, churnCohorts, identifyChurnedCustomers,
      canceledInPeriod, insertUniq, countChurnedNew, calculateChurnRate, round2, jsRound,
      clockDependentSnapshot, List.foldl, List.filter]
    try simp +decide
    try norm_num [round2, jsRound]
  have h2 : (churnRateResult 30 none clockDependentSnapshot 1000000000).churnRate = 0 := by
    norm_num [churnRateResult, filterByCurrency, churnCohorts, identifyChurnedCustomers,
      canceledInPeriod, insertUniq, countChurnedNew, calculateChurnRate, round2, jsRound,
      clockDependentSnapshot, List.foldl, List.filter]
    try simp +decide
    try norm_num [round2, jsRound]
  rw [h1, h2] at hrate
  norm_num at hrate

/-- Claim C10: the churned-customer set is collected from every
currency-filtered subscription regardless of creation date, so the
traditional branch is not bounded by the at-start count: on the overflow
snapshot one customer exists at period start, two churn, and the reported
churn rate is 200 with retention rate -100. -/
theorem churn_rate_can_exceed_100 :
    (∀ (pd : ℚ) (cur : Option String) (subs : List StripeSubscription) (now : ℚ),
      subs ≠ [] →
      ∃ r : ChurnResult, stripeChurnRateTool pd cur subs now = .ok r ∧
        r.churnedCustomersCount = specUniqueCustomersWhere
          (fun s => canceledInPeriod (now - pd * (24 * 60 * 60)) now s = true)
          (filterByCurrency cur subs)) ∧
    ((stripeChurnRateTool 30 none churnOverflowSnapshot 1000000000).map
      (fun r => (r.totalCustomersAtStart, r.churnedCustomersCount, r.churnRate,
        r.retentionRate)) = .ok (1, 2, 200, -100)) ∧
    (200 : ℚ) > 100 ∧ (-100 : ℚ) < 0 := by
  refine ⟨?_, ?_, by norm_num, by norm_num⟩
  · intro pd cur subs now hne
    exact ⟨_, stripeChurnRateTool_ok hne, churn_churnedCustomersCount pd cur subs now⟩
  · rw [stripeChurnRateTool_ok (by simp [churnOverflowSnapshot])]
    refine congrArg Except.ok ?_
    refine Prod.ext ?_ (Prod.ext ?_ (Prod.ext ?_ ?_)) <;>
    · norm_num [churnRateResult, filterByCurrency, churnCohorts, identifyChurnedCustomers,
        canceledInPeriod, insertUniq, countChurnedNew, calculateChurnRate, round2, jsRound,
        churnOverflowSnapshot, List.foldl, List.filter]
      try simp +decide
      try norm_num [round2, jsRound]

/-- Witness for claim C10, instantiated at the overflow snapshot. -/
theorem churn_rate_can_exceed_100_witness :
    ∃ r : ChurnResult,
      stripeChurnRateTool 30 none churnOverflowSnapshot 1000000000 = .ok r ∧
      r.churnedCustomersCount = specUniqueCustomersWhere
        (fun s => canceledInPeriod (1000000000 - 30 * (24 * 60 * 60)) 1000000000 s = true)
        (filterByCurrency none churnOverflowSnapshot) :=
  churn_rate_can_exceed_100.1 30 none churnOverflowSnapshot 1000000000
    (by simp [churnOverflowSnapshot])
